import Mathlib

/-!
Verification of the container-image promoter's orchestrator entrypoints.

The development shallowly embeds the two CLI entrypoints of the promoter:

* `cipMain` embeds `main` from the flag-based entrypoint (package `main`);
* `runImagePromotion` embeds `runImagePromotion` from the cobra subcommand
  entrypoint (package `cmd`).

Both entrypoints call into a registry library (`reg.*`) whose source is not
part of this repository snapshot; those calls are represented either by
oracle fields of an `Env` record (parsing, edge filtering, registry
inventories, command results) or, where a claim depends on the library's
behavior, by definitions modelled from the specification and marked as such
in their doc comments.  A run is embedded as a pure function from the
environment and the parsed option record to a final `Outcome` (exit status)
paired with the ordered trace of externally visible `Effect`s.
-/

namespace Cip

/-- A registry reference: name, service-account identity, and whether it is
the source registry of its manifest.  Mirrors `reg.RegistryContext`. -/
structure RegistryContext where
  name : String
  serviceAccount : String
  src : Bool
deriving DecidableEq, Repr

/-- An image: a short name and a map from digest to the digest's tag set.
Mirrors `reg.Image` (the digest map is embedded as an association list). -/
structure Image where
  name : String
  dmap : List (String × List String)
deriving DecidableEq, Repr

/-- A promotion manifest: registry references plus an image list.
Mirrors `reg.Manifest` after thin-manifest resolution. -/
structure Manifest where
  registries : List RegistryContext
  images : List Image
deriving DecidableEq, Repr

/-- One atomic promotion intent, mirroring `reg.PromotionEdge`.  A tagless
(digest-only) edge carries the empty string as its tag. -/
structure PromotionEdge where
  srcRegistry : String
  srcImageName : String
  dstRegistry : String
  dstImageName : String
  digest : String
  tag : String
deriving DecidableEq, Repr

/-- The argv of one registry write command, mirroring the argument list of
`reg.GetWriteCmd`: destination, optional account identity, source registry,
source image, destination image, digest, tag.  The account identity is kept
as a separate `Option` field because the write command either carries an
account argument or carries none. -/
structure WriteCmd where
  account : Option String
  destRegistry : String
  srcRegistry : String
  srcImage : String
  destImage : String
  digest : String
  tag : String
deriving DecidableEq, Repr

/-- Observed (or projected) inventory of one registry: image name mapped to
digest mapped to tag set, mirroring `reg.RegInvImage` as an association
list. -/
abbrev RegInvImage := List (String × List (String × List String))

/-- Externally visible effects of a run, in program order. -/
inductive Effect where
  /-- `gcloud.ActivateServiceAccounts` was invoked on the given key files. -/
  | activate (keyFiles : String)
  /-- `sc.ReadRegistries` read the named registry's inventory. -/
  | readRegistry (name : String)
  /-- `sc.ReadGCRManifestLists` fetched manifest-list children. -/
  | readManifestLists
  /-- `sc.Promote` was invoked on the given edge set. -/
  | promote (edges : List PromotionEdge)
  /-- A registry write subprocess was spawned with the given argv. -/
  | spawnWrite (cmd : WriteCmd)
  /-- The image-vulnerability pre-check ran over the given edge set. -/
  | vulnCheck (edges : List PromotionEdge)
  /-- A string was emitted on standard output (the snapshot rendering). -/
  | printOut (s : String)
  /-- The version banner was printed. -/
  | printVersion
  /-- An informational log line. -/
  | logInfo (s : String)
  /-- An error/warning log line. -/
  | logError (s : String)
  /-- The audit HTTP server was started. -/
  | runAuditor
deriving DecidableEq, Repr

/-- Final status of a run.  `exit0` is a successful exit, `exitNonzero`
covers `klog.Fatal`, `klog.Exitln`, `logrus.Fatal` and a non-nil error
returned to `Execute` (which calls `logrus.Fatal`).  `auditServer` marks the
audit server loop, which does not return. -/
inductive Outcome where
  | exit0
  | exitNonzero
  | auditServer
deriving DecidableEq, Repr

/-- Oracle for the registry library calls whose source is outside this
repository snapshot: parse results, sync-context construction, edge
filtering, command outcomes, observed inventories, and manifest-list child
pruning. -/
structure Env where
  activateOk : Bool
  parseManifest : String → Except String Manifest
  parseManifestsFromDir : String → Except String (List Manifest)
  parseThinManifestsFromDir : String → Except String (List Manifest)
  makeSyncContextOk : Bool
  filterEdges : List PromotionEdge → List PromotionEdge × Bool
  promoteOk : Bool
  vulnCheckOk : Bool
  auditInitOk : Bool
  inv : String → RegInvImage
  removeChildDigests : RegInvImage → RegInvImage

/-- Parsed flags of the flag-based entrypoint, one field per `flag.*`
registration in its `main`.  `noArgs` models `len(os.Args) == 1`. -/
structure LegacyFlags where
  noArgs : Bool
  manifest : String
  manifestDir : String
  thinManifestDir : String
  threads : Nat
  parseOnly : Bool
  dryRun : Bool
  keyFiles : String
  help : Bool
  version : Bool
  snapshot : String
  snapshotTag : String
  minimalSnapshot : Bool
  outputFormat : String
  snapshotSvcAcct : String
  manifestBasedSnapshotOf : String
  noSvcAcc : Bool
deriving DecidableEq, Repr

/-- The default value of every flag of the flag-based entrypoint, as
registered with the `flag` package in its `main`. -/
def legacyDefaults : LegacyFlags where
  noArgs := false
  manifest := ""
  manifestDir := ""
  thinManifestDir := ""
  threads := 10
  parseOnly := false
  dryRun := true
  keyFiles := ""
  help := false
  version := false
  snapshot := ""
  snapshotTag := ""
  minimalSnapshot := false
  outputFormat := "YAML"
  snapshotSvcAcct := ""
  manifestBasedSnapshotOf := ""
  noSvcAcc := false

/-- The option bag of the subcommand entrypoint, mirroring `rootOptions`. -/
structure rootOptions where
  manifest : String
  thinManifestDir : String
  keyFiles : String
  snapshot : String
  snapshotTag : String
  outputFormat : String
  snapshotSvcAcct : String
  manifestBasedSnapshotOf : String
  threads : Nat
  maxImageSize : Int
  severityThreshold : Int
  jsonLogSummary : Bool
  parseOnly : Bool
  dryRun : Bool
  version : Bool
  minimalSnapshot : Bool
  useServiceAcct : Bool
  audit : Bool
deriving DecidableEq, Repr

/-- The defaults of the subcommand entrypoint: every flag is registered in
`init` with the current value of the corresponding `rootOpts` field as its
default, so string and boolean flags default to Go's zero values unless the
registration passes an explicit constant (`defaultThreads`,
`defaultOutputFormat`, `defaultMaxImageSize`, `defaultSeverityThreshold`).
In particular `dry-run` is registered with default `rootOpts.dryRun`, whose
zero value is `false`. -/
def rootOptsDefaults : rootOptions where
  manifest := ""
  thinManifestDir := ""
  keyFiles := ""
  snapshot := ""
  snapshotTag := ""
  outputFormat := "YAML"
  snapshotSvcAcct := ""
  manifestBasedSnapshotOf := ""
  threads := 10
  maxImageSize := 2048
  severityThreshold := -1
  jsonLogSummary := false
  parseOnly := false
  dryRun := false
  version := false
  minimalSnapshot := false
  useServiceAcct := false
  audit := false

/-- Boolean lexicographic order on character lists, used to sort snapshot
renderings deterministically. -/
def charListLe : List Char → List Char → Bool
  | [], _ => true
  | _ :: _, [] => false
  | a :: as, b :: bs => if a = b then charListLe as bs else decide (a < b)

/-- Boolean lexicographic order on strings. -/
def strLe (a b : String) : Bool := charListLe a.data b.data

/-- Insert an element into a sorted list under the given order. -/
def insertBy (le : α → α → Bool) (x : α) : List α → List α
  | [] => [x]
  | y :: ys => if le x y then x :: y :: ys else y :: insertBy le x ys

/-- Insertion sort under the given order. -/
def sortBy (le : α → α → Bool) (l : List α) : List α := l.foldr (insertBy le) []

/-- Modelled from the spec: the YAML rendering of one digest entry inside an
image's `dmap` (`reg.RegInvImage.ToYAML` is outside this snapshot).  A
tagless digest renders with an empty sequence; tags are sorted. -/
def digestBlockYAML (d : String) (tags : List String) : String :=
  if tags.isEmpty then "    \"" ++ d ++ "\": []\n"
  else
    "    \"" ++ d ++ "\":\n" ++
      String.join ((sortBy strLe tags).map (fun t => "    - " ++ t ++ "\n"))

/-- Modelled from the spec: the YAML rendering of one image entry.  Digests
are sorted lexicographically. -/
def imageBlockYAML (img : String × List (String × List String)) : String :=
  "- name: " ++ img.1 ++ "\n  dmap:\n" ++
    String.join ((sortBy (fun a b => strLe a.1 b.1) img.2).map
      (fun p => digestBlockYAML p.1 p.2))

/-- Modelled from the spec: `reg.RegInvImage.ToYAML` (outside this
snapshot).  Images sorted lexicographically, digests within an image sorted,
tags within a digest sorted; tagless digests render with an empty
sequence. -/
def toYAML (rii : RegInvImage) : String :=
  String.join ((sortBy (fun a b => strLe a.1 b.1) rii).map imageBlockYAML)

/-- Modelled from the spec: the CSV rows of one digest entry (one row per
tag, one row with an empty tag column for a tagless digest). -/
def digestRowsCSV (img d : String) (tags : List String) : String :=
  if tags.isEmpty then img ++ "," ++ d ++ ",\n"
  else String.join ((sortBy strLe tags).map
    (fun t => img ++ "," ++ d ++ "," ++ t ++ "\n"))

/-- Modelled from the spec: `reg.RegInvImage.ToCSV` (outside this
snapshot).  A header row followed by one row per (image, digest, tag) in
the same sort order as the YAML rendering. -/
def toCSV (rii : RegInvImage) : String :=
  "image,digest,tag\n" ++
    String.join ((sortBy (fun a b => strLe a.1 b.1) rii).map
      (fun img => String.join ((sortBy (fun a b => strLe a.1 b.1) img.2).map
        (fun p => digestRowsCSV img.1 p.1 p.2))))

/-- Modelled from the spec: `reg.FilterByTag` (outside this snapshot) —
retain only inventory entries carrying the given tag; a retained digest
keeps exactly its matching tag, and images or digests left with nothing are
dropped. -/
def filterByTag (rii : RegInvImage) (t : String) : RegInvImage :=
  (rii.map (fun img =>
    (img.1, (img.2.map (fun p => (p.1, p.2.filter (fun x => x = t)))).filter
      (fun p => !p.2.isEmpty)))).filter
    (fun img => !img.2.isEmpty)

/-- Checks that every digest entry of the inventory carries the given tag. -/
def riiCarriesTag (rii : RegInvImage) (t : String) : Bool :=
  rii.all (fun img => img.2.all (fun p => p.2.contains t))

/-- The source registry reference of a manifest (the entry marked `src`). -/
def srcOf (m : Manifest) : RegistryContext :=
  (m.registries.find? (fun r => r.src)).getD ⟨"", "", true⟩

/-- The destination registry references of a manifest. -/
def destsOf (m : Manifest) : List RegistryContext :=
  m.registries.filter (fun r => !r.src)

/-- Modelled from the spec: candidate edge derivation for one manifest
(`reg.ToPromotionEdges` is outside this snapshot) — one Add edge per
destination × image × (digest, tag), and one tagless edge per destination ×
image × digest when the digest has no tags. -/
def edgesOfManifest (m : Manifest) : List PromotionEdge :=
  ((destsOf m).map (fun d =>
    (m.images.map (fun img =>
      (img.dmap.map (fun p =>
        if p.2.isEmpty then
          [PromotionEdge.mk (srcOf m).name img.name d.name img.name p.1 ""]
        else
          p.2.map (fun t =>
            PromotionEdge.mk (srcOf m).name img.name d.name img.name p.1 t))).flatten)).flatten)).flatten

/-- Deduplicate a candidate edge list (map-key semantics of the Go edge
set). -/
def dedupEdges (es : List PromotionEdge) : List PromotionEdge :=
  es.foldl (fun acc e => if acc.contains e then acc else acc ++ [e]) []

/-- Two edges bind the same destination tag to different digests. -/
def edgeConflict (e e2 : PromotionEdge) : Bool :=
  e.tag ≠ "" && e.dstRegistry = e2.dstRegistry && e.dstImageName = e2.dstImageName &&
    e.tag = e2.tag && e.digest ≠ e2.digest

/-- Modelled from the spec: `reg.ToPromotionEdges` (outside this snapshot) —
derive the deduplicated candidate edge set of a manifest list, failing on a
cross-manifest conflict (the same destination tag bound to two digests). -/
def toPromotionEdges (mfests : List Manifest) : Except String (List PromotionEdge) :=
  let es := dedupEdges ((mfests.map edgesOfManifest).flatten)
  if es.any (fun e => es.any (fun e2 => edgeConflict e e2)) then
    Except.error "cross-manifest conflict"
  else Except.ok es

/-- Add a tag to a digest's tag set (the empty tag marks a tagless edge and
adds nothing). -/
def addTagToDigest (tags : List String) (tag : String) : List String :=
  if tag = "" then tags else if tags.contains tag then tags else tags ++ [tag]

/-- Insert (digest, tag) into a digest map. -/
def insertDigest : List (String × List String) → String → String → List (String × List String)
  | [], d, tag => [(d, addTagToDigest [] tag)]
  | p :: rest, d, tag =>
    if p.1 = d then (p.1, addTagToDigest p.2 tag) :: rest
    else p :: insertDigest rest d tag

/-- Insert (image, digest, tag) into an inventory. -/
def insertEntry : RegInvImage → String → String → String → RegInvImage
  | [], img, d, tag => [(img, [(d, addTagToDigest [] tag)])]
  | p :: rest, img, d, tag =>
    if p.1 = img then (p.1, insertDigest p.2 d tag) :: rest
    else p :: insertEntry rest img d tag

/-- Modelled from the spec: `reg.EdgesToRegInvImage` (outside this
snapshot) — project the edge set onto the given destination registry,
materializing the (image, digest, tag) triple of every matching edge. -/
def edgesToRegInvImage (es : List PromotionEdge) (dest : String) : RegInvImage :=
  (es.filter (fun e => e.dstRegistry = dest)).foldl
    (fun acc e => insertEntry acc e.dstImageName e.digest e.tag) []

/-- Look up the registry context of the named destination registry in the
loaded manifests (how `sc.Promote` resolves the destination of an edge). -/
def findRegistry (mfests : List Manifest) (name : String) : RegistryContext :=
  (((mfests.map (fun m => m.registries)).flatten).find?
    (fun r => r.name = name)).getD ⟨name, "", false⟩

/-- Modelled from the spec: `reg.GetWriteCmd` (outside this snapshot) — the
write command argv is computed from the destination, the optional account
identity, the source registry, source image, destination image, digest and
tag; the account identity is attached exactly when service-account mode is
enabled. -/
def getWriteCmd (destRC : RegistryContext) (useSvcAcct : Bool)
    (e : PromotionEdge) : WriteCmd :=
  { account := if useSvcAcct then some destRC.serviceAccount else none
    destRegistry := destRC.name
    srcRegistry := e.srcRegistry
    srcImage := e.srcImageName
    destImage := e.dstImageName
    digest := e.digest
    tag := e.tag }

/-- Modelled from the spec: the effect trace of `sc.Promote` (outside this
snapshot) — the call itself, then, unless dry-run is set, one spawned write
command per edge; under dry-run the executor computes but never spawns the
commands. -/
def promoteTrace (useSvcAcct : Bool) (mfests : List Manifest) (dryRun : Bool)
    (edges : List PromotionEdge) : List Effect :=
  Effect.promote edges ::
    (if dryRun then []
     else edges.map (fun e =>
       Effect.spawnWrite (getWriteCmd (findRegistry mfests e.dstRegistry) useSvcAcct e)))

/-- The registry reads performed by `sc.FilterPromotionEdges` when invoked
with `readRepos = true`: it reads every registry referenced by the loaded
manifests. -/
def filterReadTrace (mfests : List Manifest) : List Effect :=
  ((mfests.map (fun m => m.registries)).flatten).map
    (fun r => Effect.readRegistry r.name)

/-- The snapshot-related options shared verbatim by the two entrypoints (the
snapshot blocks of `main` and of `runImagePromotion` are structurally
identical). -/
structure SnapshotOpts where
  snapshot : String
  manifestBasedSnapshotOf : String
  snapshotTag : String
  minimalSnapshot : Bool
  outputFormat : String
  snapshotSvcAcct : String
deriving DecidableEq, Repr

/-- Snapshot options of the flag-based entrypoint. -/
def LegacyFlags.snapOpts (fl : LegacyFlags) : SnapshotOpts where
  snapshot := fl.snapshot
  manifestBasedSnapshotOf := fl.manifestBasedSnapshotOf
  snapshotTag := fl.snapshotTag
  minimalSnapshot := fl.minimalSnapshot
  outputFormat := fl.outputFormat
  snapshotSvcAcct := fl.snapshotSvcAcct

/-- Snapshot options of the subcommand entrypoint. -/
def rootOptions.snapOpts (o : rootOptions) : SnapshotOpts where
  snapshot := o.snapshot
  manifestBasedSnapshotOf := o.manifestBasedSnapshotOf
  snapshotTag := o.snapshotTag
  minimalSnapshot := o.minimalSnapshot
  outputFormat := o.outputFormat
  snapshotSvcAcct := o.snapshotSvcAcct

/-- The name of the `srcRegistry` built in snapshot mode: the `snapshot`
registry when that flag is set, otherwise the `manifest-based-snapshot-of`
registry. -/
def snapshotSrcName (so : SnapshotOpts) : String :=
  if so.snapshot ≠ "" then so.snapshot else so.manifestBasedSnapshotOf

/-- The synthetic one-registry manifest installed as the initial manifest
list in snapshot mode. -/
def syntheticManifest (so : SnapshotOpts) : Manifest where
  registries := [⟨snapshotSrcName so, so.snapshotSvcAcct, true⟩]
  images := []

/-- The name indexed by `sc.Inv[mfests[0].Registries[0].Name]` in the
registry-snapshot branch. -/
def firstRegistryName (mfests : List Manifest) : String :=
  match mfests with
  | [] => ""
  | m :: _ =>
    match m.registries with
    | [] => ""
    | r :: _ => r.name

/-- The `switch` on the output format shared by both entrypoints: `CSV`
selects the CSV rendering, `YAML` the YAML rendering, and any other value
logs an error and falls back to YAML; the chosen rendering is printed on
standard output and the run exits 0. -/
def renderStage (fmt : String) (rii : RegInvImage) : Outcome × List Effect :=
  if fmt = "CSV" then (Outcome.exit0, [Effect.printOut (toCSV rii)])
  else if fmt = "YAML" then (Outcome.exit0, [Effect.printOut (toYAML rii)])
  else
    (Outcome.exit0,
     [Effect.logError "invalid value for -output-format; defaulting to YAML",
      Effect.printOut (toYAML rii)])

/-- The snapshot branch shared by both entrypoints.  With
`manifest-based-snapshot-of` set, the edge set is projected onto the target
registry (no tag filtering happens on this path); otherwise the source
registry is read recursively, the optional tag filter is applied, and with
`minimal-snapshot` the manifest-list children are pruned. -/
def snapshotTagFiltered (env : Env) (so : SnapshotOpts) (mfests : List Manifest) :
    RegInvImage :=
  if so.snapshotTag ≠ "" then
    filterByTag (env.inv (firstRegistryName mfests)) so.snapshotTag
  else env.inv (firstRegistryName mfests)

def snapshotStage (env : Env) (so : SnapshotOpts) (mfests : List Manifest) :
    Outcome × List Effect :=
  if so.manifestBasedSnapshotOf ≠ "" then
    match toPromotionEdges mfests with
    | Except.error _ => (Outcome.exitNonzero, [])
    | Except.ok edges =>
      if so.minimalSnapshot then
        ((renderStage so.outputFormat
            (env.removeChildDigests (edgesToRegInvImage edges so.manifestBasedSnapshotOf))).1,
         Effect.readRegistry (snapshotSrcName so) :: Effect.readManifestLists ::
           (renderStage so.outputFormat
             (env.removeChildDigests (edgesToRegInvImage edges so.manifestBasedSnapshotOf))).2)
      else renderStage so.outputFormat (edgesToRegInvImage edges so.manifestBasedSnapshotOf)
  else
    if env.makeSyncContextOk = false then (Outcome.exitNonzero, [])
    else
      if so.minimalSnapshot then
        ((renderStage so.outputFormat
            (env.removeChildDigests (snapshotTagFiltered env so mfests))).1,
         Effect.readRegistry (snapshotSrcName so) :: Effect.readManifestLists ::
           (renderStage so.outputFormat
             (env.removeChildDigests (snapshotTagFiltered env so mfests))).2)
      else
        ((renderStage so.outputFormat (snapshotTagFiltered env so mfests)).1,
         Effect.readRegistry (snapshotSrcName so) ::
           (renderStage so.outputFormat (snapshotTagFiltered env so mfests)).2)

/-- The promotion tail of the flag-based entrypoint: the filtered edge set
is taken from `FilterPromotionEdges` and `Promote` is invoked on it
unconditionally — in that entrypoint the filter's safety flag is not
surfaced (`promotionEdges = sc.FilterPromotionEdges(promotionEdges, true)`),
so the run never refuses execution based on it. -/
def legacyPromoteStage (env : Env) (fl : LegacyFlags) (mfests : List Manifest)
    (edges : List PromotionEdge) : Outcome × List Effect :=
  if fl.dryRun = false ∧ env.promoteOk = false then
    (Outcome.exitNonzero,
     filterReadTrace mfests ++
       promoteTrace (!fl.noSvcAcc) mfests fl.dryRun (env.filterEdges edges).1)
  else
    (Outcome.exit0,
     filterReadTrace mfests ++
       promoteTrace (!fl.noSvcAcc) mfests fl.dryRun (env.filterEdges edges).1)

/-- The promotion tail of the subcommand entrypoint: filtering returns
(edges, ok) and the run returns an error without invoking `Promote` when
`ok` is false; with a non-negative vulnerability severity threshold only the
vulnerability pre-check runs; otherwise `Promote` executes the filtered
edges.  (`sc.RunChecks([]reg.PreCheck{})` under dry-run runs an empty check
list and is a no-op.) -/
def cmdPromoteStage (env : Env) (opts : rootOptions) (mfests : List Manifest)
    (edges : List PromotionEdge) : Outcome × List Effect :=
  if (env.filterEdges edges).2 = false then (Outcome.exitNonzero, filterReadTrace mfests)
  else if 0 ≤ opts.severityThreshold then
    (if env.vulnCheckOk then Outcome.exit0 else Outcome.exitNonzero,
     filterReadTrace mfests ++ [Effect.vulnCheck (env.filterEdges edges).1])
  else if opts.dryRun = false ∧ env.promoteOk = false then
    (Outcome.exitNonzero,
     filterReadTrace mfests ++
       promoteTrace opts.useServiceAcct mfests opts.dryRun (env.filterEdges edges).1)
  else
    (Outcome.exit0,
     filterReadTrace mfests ++
       promoteTrace opts.useServiceAcct mfests opts.dryRun (env.filterEdges edges).1)

/-- Manifest loading of the flag-based entrypoint: a single manifest file is
appended to the initial (possibly synthetic) list, while a manifest
directory or thin-manifest directory replaces it; the boolean records
`doingPromotion`. -/
def legacyLoad (env : Env) (fl : LegacyFlags) (init : List Manifest) :
    Except String (List Manifest × Bool) :=
  if fl.manifest ≠ "" then
    match env.parseManifest fl.manifest with
    | Except.error e => Except.error e
    | Except.ok m => Except.ok (init ++ [m], true)
  else if fl.manifestDir ≠ "" then
    (env.parseManifestsFromDir fl.manifestDir).map (fun ms => (ms, true))
  else if fl.thinManifestDir ≠ "" then
    (env.parseThinManifestsFromDir fl.thinManifestDir).map (fun ms => (ms, true))
  else Except.ok (init, false)

/-- Manifest loading of the subcommand entrypoint (no deprecated
`manifest-dir` mode). -/
def cmdLoad (env : Env) (o : rootOptions) (init : List Manifest) :
    Except String (List Manifest × Bool) :=
  if o.manifest ≠ "" then
    match env.parseManifest o.manifest with
    | Except.error e => Except.error e
    | Except.ok m => Except.ok (init ++ [m], true)
  else if o.thinManifestDir ≠ "" then
    (env.parseThinManifestsFromDir o.thinManifestDir).map (fun ms => (ms, true))
  else Except.ok (init, false)

/-- The branch selecting between the snapshot block and the promotion tail
in the flag-based entrypoint. -/
def legacyTail (env : Env) (fl : LegacyFlags) (mfests : List Manifest)
    (edges : List PromotionEdge) : Outcome × List Effect :=
  if fl.snapshot ≠ "" ∨ fl.manifestBasedSnapshotOf ≠ "" then
    snapshotStage env fl.snapOpts mfests
  else legacyPromoteStage env fl mfests edges

/-- The stub-manifest block of the flag-based entrypoint: on a promotion
run (`doingPromotion` and no manifest-based snapshot) the edges are derived
and, when no manifest contains any image, the run logs and exits 0. -/
def legacyStub (env : Env) (fl : LegacyFlags) (mfests : List Manifest)
    (doingPromotion : Bool) : Outcome × List Effect :=
  if doingPromotion = true ∧ fl.manifestBasedSnapshotOf = "" then
    match toPromotionEdges mfests with
    | Except.error _ => (Outcome.exitNonzero, [])
    | Except.ok edges =>
      if mfests.all (fun m => m.images.isEmpty) then
        (Outcome.exit0, [Effect.logInfo "No images in manifest(s) --- nothing to do."])
      else
        ((legacyTail env fl mfests edges).1,
         Effect.printVersion :: (legacyTail env fl mfests edges).2)
  else legacyTail env fl mfests []

/-- The branch selecting between the snapshot block and the promotion tail
in the subcommand entrypoint. -/
def cmdTail (env : Env) (opts : rootOptions) (mfests : List Manifest)
    (edges : List PromotionEdge) : Outcome × List Effect :=
  if opts.snapshot ≠ "" ∨ opts.manifestBasedSnapshotOf ≠ "" then
    snapshotStage env opts.snapOpts mfests
  else cmdPromoteStage env opts mfests edges

/-- The stub-manifest block of the subcommand entrypoint. -/
def cmdStub (env : Env) (opts : rootOptions) (mfests : List Manifest)
    (doingPromotion : Bool) : Outcome × List Effect :=
  if doingPromotion = true ∧ opts.manifestBasedSnapshotOf = "" then
    match toPromotionEdges mfests with
    | Except.error _ => (Outcome.exitNonzero, [])
    | Except.ok edges =>
      if mfests.all (fun m => m.images.isEmpty) then
        (Outcome.exit0, [Effect.logInfo "No images in manifest(s) --- nothing to do."])
      else
        ((cmdTail env opts mfests edges).1,
         Effect.printVersion :: (cmdTail env opts mfests edges).2)
  else cmdTail env opts mfests []

/-- The `validateImageOptions` function of the subcommand entrypoint, which
always succeeds (its body is `return nil`). -/
def validateImageOptions (_ : rootOptions) : Except String Unit :=
  Except.ok ()

/-- Key-file activation trace of the flag-based entrypoint: key files are
activated whenever `key-files` is non-empty (the `no-service-account` flag
is not consulted). -/
def legacyActTrace (fl : LegacyFlags) : List Effect :=
  if fl.keyFiles ≠ "" then [Effect.activate fl.keyFiles] else []

/-- Key-file activation trace of the subcommand entrypoint: key files are
activated exactly when `use-service-account` is set and `key-files` is
non-empty. -/
def cmdActTrace (o : rootOptions) : List Effect :=
  if o.useServiceAcct = true ∧ o.keyFiles ≠ "" then [Effect.activate o.keyFiles] else []

/-- The initial manifest list of the flag-based entrypoint (the synthetic
manifest in snapshot mode, nothing otherwise). -/
def legacyInit (fl : LegacyFlags) : List Manifest :=
  if fl.snapshot ≠ "" ∨ fl.manifestBasedSnapshotOf ≠ "" then
    [syntheticManifest fl.snapOpts]
  else []

/-- The initial manifest list of the subcommand entrypoint. -/
def cmdInit (o : rootOptions) : List Manifest :=
  if o.snapshot ≠ "" ∨ o.manifestBasedSnapshotOf ≠ "" then
    [syntheticManifest o.snapOpts]
  else []

/-- Embedding of `main` of the flag-based entrypoint: help/version and the
bare invocation exit 0; key files, when given, are activated regardless of
the `no-service-account` flag; then the mode checks, manifest loading,
parse-only exit, stub check, and the snapshot or promotion tail. -/
def cipMain (env : Env) (fl : LegacyFlags) : Outcome × List Effect :=
  if fl.noArgs then (Outcome.exit0, [])
  else if fl.help then (Outcome.exit0, [])
  else if fl.version then (Outcome.exit0, [])
  else if fl.keyFiles ≠ "" ∧ env.activateOk = false then
    (Outcome.exitNonzero, legacyActTrace fl)
  else if fl.snapshot = "" ∧ fl.manifestBasedSnapshotOf = "" ∧ fl.manifest = "" ∧
      fl.manifestDir = "" ∧ fl.thinManifestDir = "" then
    (Outcome.exitNonzero, legacyActTrace fl)
  else
    match legacyLoad env fl (legacyInit fl) with
    | Except.error _ => (Outcome.exitNonzero, legacyActTrace fl)
    | Except.ok md =>
      if md.2 = true ∧ env.makeSyncContextOk = false then
        (Outcome.exitNonzero, legacyActTrace fl)
      else if fl.parseOnly then (Outcome.exit0, legacyActTrace fl)
      else
        ((legacyStub env fl md.1 md.2).1,
         legacyActTrace fl ++ (legacyStub env fl md.1 md.2).2)

/-- Embedding of `runImagePromotion` of the subcommand entrypoint: version
exit, option validation (which always succeeds), the audit server, key-file
activation gated on `use-service-account`, the mode checks, loading,
parse-only exit, stub check, and the snapshot or promotion tail. -/
def runImagePromotion (env : Env) (opts : rootOptions) : Outcome × List Effect :=
  if opts.version then (Outcome.exit0, [])
  else
    match validateImageOptions opts with
    | Except.error _ => (Outcome.exitNonzero, [])
    | Except.ok _ =>
      if opts.audit then
        if env.auditInitOk then (Outcome.auditServer, [Effect.runAuditor])
        else (Outcome.exitNonzero, [])
      else if opts.useServiceAcct = true ∧ opts.keyFiles ≠ "" ∧ env.activateOk = false then
        (Outcome.exitNonzero, cmdActTrace opts)
      else if opts.snapshot = "" ∧ opts.manifestBasedSnapshotOf = "" ∧
          opts.manifest = "" ∧ opts.thinManifestDir = "" then
        (Outcome.exitNonzero, cmdActTrace opts)
      else
        match cmdLoad env opts (cmdInit opts) with
        | Except.error _ => (Outcome.exitNonzero, cmdActTrace opts)
        | Except.ok md =>
          if md.2 = true ∧ env.makeSyncContextOk = false then
            (Outcome.exitNonzero, cmdActTrace opts)
          else if opts.parseOnly then (Outcome.exit0, cmdActTrace opts)
          else
            ((cmdStub env opts md.1 md.2).1,
             cmdActTrace opts ++ (cmdStub env opts md.1 md.2).2)

/-- Recognizer for the `Promote` invocation effect. -/
def isPromoteE : Effect → Bool
  | Effect.promote _ => true
  | _ => false

/-- Recognizer for a spawned write command. -/
def isWriteE : Effect → Bool
  | Effect.spawnWrite _ => true
  | _ => false

/-- Recognizer for a registry inventory read (repository listing or
manifest-list fetch). -/
def isReadE : Effect → Bool
  | Effect.readRegistry _ => true
  | Effect.readManifestLists => true
  | _ => false

/-- Recognizer for service-account activation. -/
def isActivateE : Effect → Bool
  | Effect.activate _ => true
  | _ => false

/-- Recognizer for an error/warning log line. -/
def isErrLogE : Effect → Bool
  | Effect.logError _ => true
  | _ => false

/-- Recognizer for the vulnerability pre-check. -/
def isVulnE : Effect → Bool
  | Effect.vulnCheck _ => true
  | _ => false

/-- Whether the trace contains a `Promote` invocation. -/
def callsPromote (t : List Effect) : Bool := t.any isPromoteE

/-- Whether the trace contains a spawned write command. -/
def spawnsWrite (t : List Effect) : Bool := t.any isWriteE

/-- Whether the trace contains a registry inventory read. -/
def readsInventory (t : List Effect) : Bool := t.any isReadE

/-- Whether the trace contains a service-account activation. -/
def didActivate (t : List Effect) : Bool := t.any isActivateE

/-- Whether the trace contains an error/warning log line. -/
def logsError (t : List Effect) : Bool := t.any isErrLogE

/-- Whether the trace contains a vulnerability pre-check. -/
def ranVulnCheck (t : List Effect) : Bool := t.any isVulnE

/-- The first string emitted on standard output, if any. -/
def printedOutput (t : List Effect) : Option String :=
  (t.filterMap (fun e =>
    match e with
    | Effect.printOut s => some s
    | _ => none)).head?

/-- Sample manifest: one source, one destination, one tagged image. -/
def mW : Manifest where
  registries := [⟨"src.reg", "src-acct", true⟩, ⟨"dest.reg", "dst-acct", false⟩]
  images := [{ name := "app", dmap := [("sha256:aaa", ["v2"])] }]

/-- Sample stub manifest: same registries, no images. -/
def mStub : Manifest where
  registries := [⟨"src.reg", "src-acct", true⟩, ⟨"dest.reg", "dst-acct", false⟩]
  images := []

/-- Sample oracle in which every library call succeeds. -/
def envAllOk : Env where
  activateOk := true
  parseManifest := fun _ => Except.ok mW
  parseManifestsFromDir := fun _ => Except.ok [mW]
  parseThinManifestsFromDir := fun _ => Except.ok [mW]
  makeSyncContextOk := true
  filterEdges := fun es => (es, true)
  promoteOk := true
  vulnCheckOk := true
  auditInitOk := true
  inv := fun _ => [("app", [("sha256:bbb", ["v1", "zz"]), ("sha256:ccc", [])])]
  removeChildDigests := fun r => r

/-- Sample oracle in which edge filtering rejects an edge for safety
reasons (reports ok = false). -/
def envFilterBad : Env :=
  { envAllOk with filterEdges := fun es => (es, false) }

/-- Sample oracle in which every parse yields the stub manifest. -/
def envStub : Env :=
  { envAllOk with
    parseManifest := fun _ => Except.ok mStub
    parseManifestsFromDir := fun _ => Except.ok [mStub]
    parseThinManifestsFromDir := fun _ => Except.ok [mStub] }

/-- Sample flag set: a plain promotion run of one manifest file. -/
def flagsProm : LegacyFlags := { legacyDefaults with manifest := "m.yaml" }

/-- Sample flag set: promotion with key files given while the
`no-service-account` flag disables service-account mode. -/
def flagsKeysNoSvc : LegacyFlags :=
  { legacyDefaults with manifest := "m.yaml", keyFiles := "key.json", noSvcAcc := true }

/-- Sample flag set: parse-only over one manifest file. -/
def flagsParse : LegacyFlags :=
  { legacyDefaults with manifest := "m.yaml", parseOnly := true }

/-- Sample flag set: a registry snapshot with a tag filter. -/
def flagsSnap : LegacyFlags :=
  { legacyDefaults with snapshot := "snap.reg", snapshotTag := "v1" }

/-- Sample option set: a plain promotion run of one manifest file. -/
def optsProm : rootOptions := { rootOptsDefaults with manifest := "m.yaml" }

/-- Sample option set: version only. -/
def optsVersion : rootOptions := { rootOptsDefaults with version := true }

/-- Sample option set: manifest-based snapshot with a tag filter that the
code never applies on this path. -/
def optsMbsoTag : rootOptions :=
  { rootOptsDefaults with
    manifest := "m.yaml", manifestBasedSnapshotOf := "dest.reg", snapshotTag := "v1" }

/-- Sample option set: a registry snapshot with a tag filter. -/
def optsSnap : rootOptions :=
  { rootOptsDefaults with snapshot := "snap.reg", snapshotTag := "v1" }

/-- Sample option set: a registry snapshot combined with a manifest flag. -/
def optsSnapManifest : rootOptions :=
  { rootOptsDefaults with snapshot := "snap.reg", manifest := "m.yaml" }

/-- Sample option set: parse-only over one manifest file. -/
def optsParse : rootOptions :=
  { rootOptsDefaults with manifest := "m.yaml", parseOnly := true }

/-- Sample option set: promotion gated behind the vulnerability check. -/
def optsVuln : rootOptions :=
  { rootOptsDefaults with manifest := "m.yaml", severityThreshold := 3 }

/-- The projected inventory of `mW` onto its destination registry. -/
def riiW : RegInvImage := [("app", [("sha256:aaa", ["v2"])])]

/-- The promotion edge derived from `mW`. -/
def eW : PromotionEdge :=
  ⟨"src.reg", "app", "dest.reg", "app", "sha256:aaa", "v2"⟩

/-- The rendering selected for a given output-format value: `CSV` gives the
CSV rendering and every other value the YAML rendering. -/
def renderString (fmt : String) (rii : RegInvImage) : String :=
  if fmt = "CSV" then toCSV rii else toYAML rii

/-- Sample option set: promotion with service-account mode and key files. -/
def optsKeys : rootOptions :=
  { rootOptsDefaults with
    manifest := "m.yaml", useServiceAcct := true, keyFiles := "key.json" }

/-- Sample option set: a plain registry snapshot (no tag filter). -/
def optsSnapNoTag : rootOptions := { rootOptsDefaults with snapshot := "snap.reg" }

/-- Detects a spawned write command whose account argument disagrees with
the given service-account mode: present although the mode is off, or absent
although it is on. -/
def badAccountW (u : Bool) : Effect → Bool
  | Effect.spawnWrite w => w.account.isSome != u
  | _ => false

theorem flatten_map_nil (l : List α) :
    (l.map (fun _ => ([] : List β))).flatten = [] := by
  induction l with
  | nil => rfl
  | cons x xs ih => simp [ih]

theorem edgesOfManifest_stub (m : Manifest) (h : m.images.isEmpty = true) :
    edgesOfManifest m = [] := by
  have h2 : m.images = [] := by
    cases hm : m.images with
    | nil => rfl
    | cons a as => rw [hm] at h; simp at h
  simp [edgesOfManifest, h2, flatten_map_nil]

theorem toPromotionEdges_stub (mfests : List Manifest)
    (h : mfests.all (fun m => m.images.isEmpty) = true) :
    toPromotionEdges mfests = Except.ok [] := by
  have hz : (mfests.map edgesOfManifest).flatten = [] := by
    induction mfests with
    | nil => rfl
    | cons m ms ih =>
      rw [List.all_cons, Bool.and_eq_true] at h
      simp [edgesOfManifest_stub m h.1, ih h.2]
  simp [toPromotionEdges, hz, dedupEdges]

theorem any_readRegistry_map (p : Effect → Bool)
    (hp : ∀ s, p (Effect.readRegistry s) = false) (l : List RegistryContext) :
    (l.map (fun r => Effect.readRegistry r.name)).any p = false := by
  induction l with
  | nil => rfl
  | cons x xs ih => simp [hp, ih]

theorem filterReadTrace_any (p : Effect → Bool)
    (hp : ∀ s, p (Effect.readRegistry s) = false) (mfests : List Manifest) :
    (filterReadTrace mfests).any p = false :=
  any_readRegistry_map p hp _

theorem any_spawnWrite_map (p : Effect → Bool)
    (hw : ∀ w, p (Effect.spawnWrite w) = false)
    (l : List PromotionEdge) (f : PromotionEdge → WriteCmd) :
    (l.map (fun e => Effect.spawnWrite (f e))).any p = false := by
  induction l with
  | nil => rfl
  | cons x xs ih => simp [hw, ih]

theorem promoteTrace_any (p : Effect → Bool) (u : Bool) (ms : List Manifest)
    (d : Bool) (es : List PromotionEdge)
    (hpr : ∀ e, p (Effect.promote e) = false)
    (hw : ∀ w, p (Effect.spawnWrite w) = false) :
    (promoteTrace u ms d es).any p = false := by
  unfold promoteTrace
  rw [List.any_cons, hpr]
  simp only [Bool.false_or]
  split
  · rfl
  · exact any_spawnWrite_map p hw es _

theorem any_badAccount_map (u : Bool) (g : PromotionEdge → RegistryContext)
    (l : List PromotionEdge) :
    (l.map (fun e => Effect.spawnWrite (getWriteCmd (g e) u e))).any (badAccountW u) = false := by
  induction l with
  | nil => rfl
  | cons x xs ih =>
    rw [List.map_cons, List.any_cons, ih]
    cases u <;> simp [badAccountW, getWriteCmd]

theorem promoteTrace_badAccount (u : Bool) (ms : List Manifest) (d : Bool)
    (es : List PromotionEdge) :
    (promoteTrace u ms d es).any (badAccountW u) = false := by
  unfold promoteTrace
  rw [List.any_cons]
  simp only [badAccountW, Bool.false_or]
  split
  · rfl
  · exact any_badAccount_map u _ es

theorem renderStage_any (p : Effect → Bool) (fmt : String) (rii : RegInvImage)
    (h1 : ∀ s, p (Effect.printOut s) = false)
    (h2 : ∀ s, p (Effect.logError s) = false) :
    (renderStage fmt rii).2.any p = false := by
  unfold renderStage
  split
  · simp [h1]
  · split <;> simp [h1, h2]

theorem snapshotStage_any (p : Effect → Bool) (env : Env) (so : SnapshotOpts)
    (mfests : List Manifest)
    (h1 : ∀ s, p (Effect.printOut s) = false)
    (h2 : ∀ s, p (Effect.logError s) = false)
    (h3 : ∀ s, p (Effect.readRegistry s) = false)
    (h4 : p Effect.readManifestLists = false) :
    (snapshotStage env so mfests).2.any p = false := by
  unfold snapshotStage
  split
  · split
    · rfl
    · split
      · rw [List.any_cons, List.any_cons, h3, h4, renderStage_any p _ _ h1 h2]
        rfl
      · exact renderStage_any p _ _ h1 h2
  · split
    · rfl
    · split
      · rw [List.any_cons, List.any_cons, h3, h4, renderStage_any p _ _ h1 h2]
        rfl
      · rw [List.any_cons, h3, renderStage_any p _ _ h1 h2]
        rfl

theorem legacyPromoteStage_any (p : Effect → Bool) (env : Env) (fl : LegacyFlags)
    (mfests : List Manifest) (edges : List PromotionEdge)
    (h3 : ∀ s, p (Effect.readRegistry s) = false)
    (hpr : ∀ e, p (Effect.promote e) = false)
    (hw : ∀ w, p (Effect.spawnWrite w) = false) :
    (legacyPromoteStage env fl mfests edges).2.any p = false := by
  unfold legacyPromoteStage
  split <;>
    simp [List.any_append, filterReadTrace_any p h3, promoteTrace_any p _ _ _ _ hpr hw]

theorem cmdPromoteStage_any (p : Effect → Bool) (env : Env) (opts : rootOptions)
    (mfests : List Manifest) (edges : List PromotionEdge)
    (h3 : ∀ s, p (Effect.readRegistry s) = false)
    (hv : ∀ e, p (Effect.vulnCheck e) = false)
    (hpr : ∀ e, p (Effect.promote e) = false)
    (hw : ∀ w, p (Effect.spawnWrite w) = false) :
    (cmdPromoteStage env opts mfests edges).2.any p = false := by
  unfold cmdPromoteStage
  split
  · exact filterReadTrace_any p h3 mfests
  · split
    · simp [List.any_append, filterReadTrace_any p h3, hv]
    · split <;>
        simp [List.any_append, filterReadTrace_any p h3,
          promoteTrace_any p _ _ _ _ hpr hw]

theorem legacyTail_any (p : Effect → Bool) (env : Env) (fl : LegacyFlags)
    (mfests : List Manifest) (edges : List PromotionEdge)
    (h1 : ∀ s, p (Effect.printOut s) = false)
    (h2 : ∀ s, p (Effect.logError s) = false)
    (h3 : ∀ s, p (Effect.readRegistry s) = false)
    (h4 : p Effect.readManifestLists = false)
    (hpr : ∀ e, p (Effect.promote e) = false)
    (hw : ∀ w, p (Effect.spawnWrite w) = false) :
    (legacyTail env fl mfests edges).2.any p = false := by
  unfold legacyTail
  split
  · exact snapshotStage_any p env _ mfests h1 h2 h3 h4
  · exact legacyPromoteStage_any p env fl mfests edges h3 hpr hw

theorem cmdTail_any (p : Effect → Bool) (env : Env) (opts : rootOptions)
    (mfests : List Manifest) (edges : List PromotionEdge)
    (h1 : ∀ s, p (Effect.printOut s) = false)
    (h2 : ∀ s, p (Effect.logError s) = false)
    (h3 : ∀ s, p (Effect.readRegistry s) = false)
    (h4 : p Effect.readManifestLists = false)
    (hv : ∀ e, p (Effect.vulnCheck e) = false)
    (hpr : ∀ e, p (Effect.promote e) = false)
    (hw : ∀ w, p (Effect.spawnWrite w) = false) :
    (cmdTail env opts mfests edges).2.any p = false := by
  unfold cmdTail
  split
  · exact snapshotStage_any p env _ mfests h1 h2 h3 h4
  · exact cmdPromoteStage_any p env opts mfests edges h3 hv hpr hw

theorem legacyStub_any (p : Effect → Bool) (env : Env) (fl : LegacyFlags)
    (mfests : List Manifest) (doing : Bool)
    (h1 : ∀ s, p (Effect.printOut s) = false)
    (h2 : ∀ s, p (Effect.logError s) = false)
    (h3 : ∀ s, p (Effect.readRegistry s) = false)
    (h4 : p Effect.readManifestLists = false)
    (hlog : ∀ s, p (Effect.logInfo s) = false)
    (hpv : p Effect.printVersion = false)
    (hpr : ∀ e, p (Effect.promote e) = false)
    (hw : ∀ w, p (Effect.spawnWrite w) = false) :
    (legacyStub env fl mfests doing).2.any p = false := by
  unfold legacyStub
  split
  · split
    · rfl
    · split
      · simp [hlog]
      · rw [List.any_cons, hpv, legacyTail_any p env fl mfests _ h1 h2 h3 h4 hpr hw]
        rfl
  · exact legacyTail_any p env fl mfests _ h1 h2 h3 h4 hpr hw

theorem cmdStub_any (p : Effect → Bool) (env : Env) (opts : rootOptions)
    (mfests : List Manifest) (doing : Bool)
    (h1 : ∀ s, p (Effect.printOut s) = false)
    (h2 : ∀ s, p (Effect.logError s) = false)
    (h3 : ∀ s, p (Effect.readRegistry s) = false)
    (h4 : p Effect.readManifestLists = false)
    (hlog : ∀ s, p (Effect.logInfo s) = false)
    (hpv : p Effect.printVersion = false)
    (hv : ∀ e, p (Effect.vulnCheck e) = false)
    (hpr : ∀ e, p (Effect.promote e) = false)
    (hw : ∀ w, p (Effect.spawnWrite w) = false) :
    (cmdStub env opts mfests doing).2.any p = false := by
  unfold cmdStub
  split
  · split
    · rfl
    · split
      · simp [hlog]
      · rw [List.any_cons, hpv, cmdTail_any p env opts mfests _ h1 h2 h3 h4 hv hpr hw]
        rfl
  · exact cmdTail_any p env opts mfests _ h1 h2 h3 h4 hv hpr hw

theorem legacyActTrace_any (p : Effect → Bool) (fl : LegacyFlags)
    (hact : ∀ s, p (Effect.activate s) = false) :
    (legacyActTrace fl).any p = false := by
  unfold legacyActTrace
  split <;> simp [hact]

theorem cmdActTrace_any (p : Effect → Bool) (o : rootOptions)
    (hact : ∀ s, p (Effect.activate s) = false) :
    (cmdActTrace o).any p = false := by
  unfold cmdActTrace
  split <;> simp [hact]

theorem cipMain_any (p : Effect → Bool) (env : Env) (fl : LegacyFlags)
    (hact : ∀ s, p (Effect.activate s) = false)
    (h1 : ∀ s, p (Effect.printOut s) = false)
    (h2 : ∀ s, p (Effect.logError s) = false)
    (h3 : ∀ s, p (Effect.readRegistry s) = false)
    (h4 : p Effect.readManifestLists = false)
    (hlog : ∀ s, p (Effect.logInfo s) = false)
    (hpv : p Effect.printVersion = false)
    (hpr : ∀ e, p (Effect.promote e) = false)
    (hw : ∀ w, p (Effect.spawnWrite w) = false) :
    (cipMain env fl).2.any p = false := by
  unfold cipMain
  repeat' split
  all_goals
    first
      | rfl
      | exact legacyActTrace_any p fl hact
      | (rw [List.any_append, legacyActTrace_any p fl hact,
          legacyStub_any p env fl _ _ h1 h2 h3 h4 hlog hpv hpr hw]; rfl)

theorem runImagePromotion_any (p : Effect → Bool) (env : Env) (opts : rootOptions)
    (hact : ∀ s, p (Effect.activate s) = false)
    (haud : p Effect.runAuditor = false)
    (h1 : ∀ s, p (Effect.printOut s) = false)
    (h2 : ∀ s, p (Effect.logError s) = false)
    (h3 : ∀ s, p (Effect.readRegistry s) = false)
    (h4 : p Effect.readManifestLists = false)
    (hlog : ∀ s, p (Effect.logInfo s) = false)
    (hpv : p Effect.printVersion = false)
    (hv : ∀ e, p (Effect.vulnCheck e) = false)
    (hpr : ∀ e, p (Effect.promote e) = false)
    (hw : ∀ w, p (Effect.spawnWrite w) = false) :
    (runImagePromotion env opts).2.any p = false := by
  unfold runImagePromotion
  simp only [validateImageOptions]
  repeat' split
  all_goals
    first
      | rfl
      | exact cmdActTrace_any p opts hact
      | (rw [List.any_cons, haud]; rfl)
      | (rw [List.any_append, cmdActTrace_any p opts hact,
          cmdStub_any p env opts _ _ h1 h2 h3 h4 hlog hpv hv hpr hw]; rfl)

theorem cmdPromoteStage_vuln_any (p : Effect → Bool) (env : Env) (opts : rootOptions)
    (mfests : List Manifest) (edges : List PromotionEdge)
    (hsev : 0 ≤ opts.severityThreshold)
    (h3 : ∀ s, p (Effect.readRegistry s) = false)
    (hv : ∀ e, p (Effect.vulnCheck e) = false) :
    (cmdPromoteStage env opts mfests edges).2.any p = false := by
  unfold cmdPromoteStage
  split
  · exact filterReadTrace_any p h3 mfests
  · simp [List.any_append, filterReadTrace_any p h3, hv]

theorem cmdTail_vuln_any (p : Effect → Bool) (env : Env) (opts : rootOptions)
    (mfests : List Manifest) (edges : List PromotionEdge)
    (hsev : 0 ≤ opts.severityThreshold)
    (h1 : ∀ s, p (Effect.printOut s) = false)
    (h2 : ∀ s, p (Effect.logError s) = false)
    (h3 : ∀ s, p (Effect.readRegistry s) = false)
    (h4 : p Effect.readManifestLists = false)
    (hv : ∀ e, p (Effect.vulnCheck e) = false) :
    (cmdTail env opts mfests edges).2.any p = false := by
  unfold cmdTail
  split
  · exact snapshotStage_any p env _ mfests h1 h2 h3 h4
  · exact cmdPromoteStage_vuln_any p env opts mfests edges hsev h3 hv

theorem cmdStub_vuln_any (p : Effect → Bool) (env : Env) (opts : rootOptions)
    (mfests : List Manifest) (doing : Bool)
    (hsev : 0 ≤ opts.severityThreshold)
    (h1 : ∀ s, p (Effect.printOut s) = false)
    (h2 : ∀ s, p (Effect.logError s) = false)
    (h3 : ∀ s, p (Effect.readRegistry s) = false)
    (h4 : p Effect.readManifestLists = false)
    (hlog : ∀ s, p (Effect.logInfo s) = false)
    (hpv : p Effect.printVersion = false)
    (hv : ∀ e, p (Effect.vulnCheck e) = false) :
    (cmdStub env opts mfests doing).2.any p = false := by
  unfold cmdStub
  split
  · split
    · rfl
    · split
      · simp [hlog]
      · rw [List.any_cons, hpv,
          cmdTail_vuln_any p env opts mfests _ hsev h1 h2 h3 h4 hv]
        rfl
  · exact cmdTail_vuln_any p env opts mfests _ hsev h1 h2 h3 h4 hv

theorem runImagePromotion_vuln_any (p : Effect → Bool) (env : Env) (opts : rootOptions)
    (hsev : 0 ≤ opts.severityThreshold)
    (hact : ∀ s, p (Effect.activate s) = false)
    (haud : p Effect.runAuditor = false)
    (h1 : ∀ s, p (Effect.printOut s) = false)
    (h2 : ∀ s, p (Effect.logError s) = false)
    (h3 : ∀ s, p (Effect.readRegistry s) = false)
    (h4 : p Effect.readManifestLists = false)
    (hlog : ∀ s, p (Effect.logInfo s) = false)
    (hpv : p Effect.printVersion = false)
    (hv : ∀ e, p (Effect.vulnCheck e) = false) :
    (runImagePromotion env opts).2.any p = false := by
  unfold runImagePromotion
  simp only [validateImageOptions]
  repeat' split
  all_goals
    first
      | rfl
      | exact cmdActTrace_any p opts hact
      | (rw [List.any_cons, haud]; rfl)
      | (rw [List.any_append, cmdActTrace_any p opts hact,
          cmdStub_vuln_any p env opts _ _ hsev h1 h2 h3 h4 hlog hpv hv]; rfl)

theorem legacyPromoteStage_badAccount (env : Env) (fl : LegacyFlags)
    (mfests : List Manifest) (edges : List PromotionEdge) :
    (legacyPromoteStage env fl mfests edges).2.any (badAccountW (!fl.noSvcAcc)) = false := by
  unfold legacyPromoteStage
  split <;>
    (rw [List.any_append,
      filterReadTrace_any (badAccountW (!fl.noSvcAcc)) (fun _ => rfl) mfests,
      promoteTrace_badAccount (!fl.noSvcAcc) mfests fl.dryRun _]; rfl)

theorem cmdPromoteStage_badAccount (env : Env) (opts : rootOptions)
    (mfests : List Manifest) (edges : List PromotionEdge) :
    (cmdPromoteStage env opts mfests edges).2.any (badAccountW opts.useServiceAcct) = false := by
  unfold cmdPromoteStage
  split
  · exact filterReadTrace_any (badAccountW opts.useServiceAcct) (fun _ => rfl) mfests
  · split
    · rw [List.any_append,
        filterReadTrace_any (badAccountW opts.useServiceAcct) (fun _ => rfl) mfests]
      rfl
    · split <;>
        (rw [List.any_append,
          filterReadTrace_any (badAccountW opts.useServiceAcct) (fun _ => rfl) mfests,
          promoteTrace_badAccount opts.useServiceAcct mfests opts.dryRun _]; rfl)

theorem legacyStub_badAccount (env : Env) (fl : LegacyFlags)
    (mfests : List Manifest) (doing : Bool) :
    (legacyStub env fl mfests doing).2.any (badAccountW (!fl.noSvcAcc)) = false := by
  have htail : ∀ edges, (legacyTail env fl mfests edges).2.any (badAccountW (!fl.noSvcAcc)) = false := by
    intro edges
    unfold legacyTail
    split
    · exact snapshotStage_any _ env _ mfests (fun _ => rfl) (fun _ => rfl) (fun _ => rfl) rfl
    · exact legacyPromoteStage_badAccount env fl mfests edges
  unfold legacyStub
  split
  · split
    · rfl
    · split
      · simp [badAccountW]
      · rw [List.any_cons, htail]
        rfl
  · exact htail _

theorem cmdStub_badAccount (env : Env) (opts : rootOptions)
    (mfests : List Manifest) (doing : Bool) :
    (cmdStub env opts mfests doing).2.any (badAccountW opts.useServiceAcct) = false := by
  have htail : ∀ edges, (cmdTail env opts mfests edges).2.any (badAccountW opts.useServiceAcct) = false := by
    intro edges
    unfold cmdTail
    split
    · exact snapshotStage_any _ env _ mfests (fun _ => rfl) (fun _ => rfl) (fun _ => rfl) rfl
    · exact cmdPromoteStage_badAccount env opts mfests edges
  unfold cmdStub
  split
  · split
    · rfl
    · split
      · simp [badAccountW]
      · rw [List.any_cons, htail]
        rfl
  · exact htail _

theorem cipMain_badAccount (env : Env) (fl : LegacyFlags) :
    (cipMain env fl).2.any (badAccountW (!fl.noSvcAcc)) = false := by
  unfold cipMain
  repeat' split
  all_goals
    first
      | rfl
      | exact legacyActTrace_any (badAccountW (!fl.noSvcAcc)) fl (fun _ => rfl)
      | (rw [List.any_append,
          legacyActTrace_any (badAccountW (!fl.noSvcAcc)) fl (fun _ => rfl),
          legacyStub_badAccount env fl _ _]; rfl)

theorem runImagePromotion_badAccount (env : Env) (opts : rootOptions) :
    (runImagePromotion env opts).2.any (badAccountW opts.useServiceAcct) = false := by
  unfold runImagePromotion
  simp only [validateImageOptions]
  repeat' split
  all_goals
    first
      | rfl
      | exact cmdActTrace_any (badAccountW opts.useServiceAcct) opts (fun _ => rfl)
      | (rw [List.any_append,
          cmdActTrace_any (badAccountW opts.useServiceAcct) opts (fun _ => rfl),
          cmdStub_badAccount env opts _ _]; rfl)

theorem promoteTrace_calls (u : Bool) (ms : List Manifest) (d : Bool)
    (es : List PromotionEdge) :
    (promoteTrace u ms d es).any isPromoteE = true := by
  unfold promoteTrace
  rw [List.any_cons]
  rfl

theorem promoteTrace_dry_noWrite (u : Bool) (ms : List Manifest)
    (es : List PromotionEdge) :
    (promoteTrace u ms true es).any isWriteE = false := rfl

theorem legacyPromoteStage_dry_noWrite (env : Env) (fl : LegacyFlags)
    (mfests : List Manifest) (edges : List PromotionEdge) (hd : fl.dryRun = true) :
    (legacyPromoteStage env fl mfests edges).2.any isWriteE = false := by
  unfold legacyPromoteStage
  split <;>
    (rw [List.any_append, filterReadTrace_any isWriteE (fun _ => rfl) mfests, hd,
      promoteTrace_dry_noWrite]; rfl)

theorem cmdPromoteStage_dry_noWrite (env : Env) (opts : rootOptions)
    (mfests : List Manifest) (edges : List PromotionEdge) (hd : opts.dryRun = true) :
    (cmdPromoteStage env opts mfests edges).2.any isWriteE = false := by
  unfold cmdPromoteStage
  split
  · exact filterReadTrace_any isWriteE (fun _ => rfl) mfests
  · split
    · simp [List.any_append, filterReadTrace_any isWriteE (fun _ => rfl), isWriteE]
    · split <;>
        (rw [List.any_append, filterReadTrace_any isWriteE (fun _ => rfl) mfests, hd,
          promoteTrace_dry_noWrite]; rfl)

theorem legacyStub_dry_noWrite (env : Env) (fl : LegacyFlags)
    (mfests : List Manifest) (doing : Bool) (hd : fl.dryRun = true) :
    (legacyStub env fl mfests doing).2.any isWriteE = false := by
  have htail : ∀ edges, (legacyTail env fl mfests edges).2.any isWriteE = false := by
    intro edges
    unfold legacyTail
    split
    · exact snapshotStage_any _ env _ mfests (fun _ => rfl) (fun _ => rfl) (fun _ => rfl) rfl
    · exact legacyPromoteStage_dry_noWrite env fl mfests edges hd
  unfold legacyStub
  split
  · split
    · rfl
    · split
      · rfl
      · rw [List.any_cons, htail]
        rfl
  · exact htail _

theorem cmdStub_dry_noWrite (env : Env) (opts : rootOptions)
    (mfests : List Manifest) (doing : Bool) (hd : opts.dryRun = true) :
    (cmdStub env opts mfests doing).2.any isWriteE = false := by
  have htail : ∀ edges, (cmdTail env opts mfests edges).2.any isWriteE = false := by
    intro edges
    unfold cmdTail
    split
    · exact snapshotStage_any _ env _ mfests (fun _ => rfl) (fun _ => rfl) (fun _ => rfl) rfl
    · exact cmdPromoteStage_dry_noWrite env opts mfests edges hd
  unfold cmdStub
  split
  · split
    · rfl
    · split
      · rfl
      · rw [List.any_cons, htail]
        rfl
  · exact htail _

theorem cipMain_dry_noWrite (env : Env) (fl : LegacyFlags) (hd : fl.dryRun = true) :
    (cipMain env fl).2.any isWriteE = false := by
  unfold cipMain
  repeat' split
  all_goals
    first
      | rfl
      | exact legacyActTrace_any isWriteE fl (fun _ => rfl)
      | (rw [List.any_append, legacyActTrace_any isWriteE fl (fun _ => rfl),
          legacyStub_dry_noWrite env fl _ _ hd]; rfl)

theorem runImagePromotion_dry_noWrite (env : Env) (opts : rootOptions)
    (hd : opts.dryRun = true) :
    (runImagePromotion env opts).2.any isWriteE = false := by
  unfold runImagePromotion
  simp only [validateImageOptions]
  repeat' split
  all_goals
    first
      | rfl
      | exact cmdActTrace_any isWriteE opts (fun _ => rfl)
      | (rw [List.any_append, cmdActTrace_any isWriteE opts (fun _ => rfl),
          cmdStub_dry_noWrite env opts _ _ hd]; rfl)

theorem legacyStub_snap_noPromote (env : Env) (fl : LegacyFlags)
    (mfests : List Manifest) (doing : Bool)
    (hs : fl.snapshot ≠ "" ∨ fl.manifestBasedSnapshotOf ≠ "") :
    (legacyStub env fl mfests doing).2.any isPromoteE = false := by
  have htail : ∀ edges, (legacyTail env fl mfests edges).2.any isPromoteE = false := by
    intro edges
    unfold legacyTail
    rw [if_pos hs]
    exact snapshotStage_any _ env _ mfests (fun _ => rfl) (fun _ => rfl) (fun _ => rfl) rfl
  unfold legacyStub
  split
  · split
    · rfl
    · split
      · rfl
      · rw [List.any_cons, htail]
        rfl
  · exact htail _

theorem cmdStub_snap_noPromote (env : Env) (opts : rootOptions)
    (mfests : List Manifest) (doing : Bool)
    (hs : opts.snapshot ≠ "" ∨ opts.manifestBasedSnapshotOf ≠ "") :
    (cmdStub env opts mfests doing).2.any isPromoteE = false := by
  have htail : ∀ edges, (cmdTail env opts mfests edges).2.any isPromoteE = false := by
    intro edges
    unfold cmdTail
    rw [if_pos hs]
    exact snapshotStage_any _ env _ mfests (fun _ => rfl) (fun _ => rfl) (fun _ => rfl) rfl
  unfold cmdStub
  split
  · split
    · rfl
    · split
      · rfl
      · rw [List.any_cons, htail]
        rfl
  · exact htail _

theorem didActivate_legacyActTrace (fl : LegacyFlags) :
    didActivate (legacyActTrace fl) = true ↔ fl.keyFiles ≠ "" := by
  unfold didActivate legacyActTrace
  split
  · rename_i h
    simpa [isActivateE] using h
  · rename_i h
    simpa [isActivateE] using h

theorem didActivate_cmdActTrace (o : rootOptions) :
    didActivate (cmdActTrace o) = true ↔ (o.useServiceAcct = true ∧ o.keyFiles ≠ "") := by
  unfold didActivate cmdActTrace
  split
  · rename_i h
    simpa [isActivateE] using h
  · rename_i h
    simpa [isActivateE] using h

theorem renderStage_fst (fmt : String) (rii : RegInvImage) :
    (renderStage fmt rii).1 = Outcome.exit0 := by
  unfold renderStage
  split
  · rfl
  · split <;> rfl

theorem printedOutput_renderStage (fmt : String) (rii : RegInvImage) :
    printedOutput (renderStage fmt rii).2 = some (renderString fmt rii) := by
  unfold printedOutput renderStage renderString
  split
  · rename_i h
    simp [h]
  · split <;> rfl

theorem logsError_renderStage (fmt : String) (rii : RegInvImage)
    (h1 : ¬fmt = "CSV") (h2 : ¬fmt = "YAML") :
    logsError (renderStage fmt rii).2 = true := by
  unfold logsError renderStage
  rw [if_neg h1, if_neg h2]
  rfl

theorem printedOutput_cmdActTrace (o : rootOptions) (t : List Effect) :
    printedOutput (cmdActTrace o ++ t) = printedOutput t := by
  unfold cmdActTrace
  split <;> rfl

theorem printedOutput_legacyActTrace (fl : LegacyFlags) (t : List Effect) :
    printedOutput (legacyActTrace fl ++ t) = printedOutput t := by
  unfold legacyActTrace
  split <;> rfl

theorem logsError_cmdActTrace (o : rootOptions) (t : List Effect) :
    logsError (cmdActTrace o ++ t) = logsError t := by
  unfold logsError cmdActTrace
  split <;> rfl

theorem logsError_legacyActTrace (fl : LegacyFlags) (t : List Effect) :
    logsError (legacyActTrace fl ++ t) = logsError t := by
  unfold logsError legacyActTrace
  split <;> rfl

theorem filterByTag_carries (rii : RegInvImage) (t : String) :
    riiCarriesTag (filterByTag rii t) t = true := by
  unfold riiCarriesTag filterByTag
  rw [List.all_eq_true]
  intro img himg
  rw [List.mem_filter] at himg
  obtain ⟨hmem, _⟩ := himg
  rw [List.mem_map] at hmem
  obtain ⟨img0, _, heq⟩ := hmem
  rw [← heq]
  rw [List.all_eq_true]
  intro p hp
  rw [List.mem_filter] at hp
  obtain ⟨hpmem, hpne⟩ := hp
  rw [List.mem_map] at hpmem
  obtain ⟨q, _, heq2⟩ := hpmem
  rw [← heq2] at hpne ⊢
  cases hv : q.2.filter (fun x => x = t) with
  | nil => rw [hv] at hpne; simp at hpne
  | cons a as =>
    have ha : a = t := by
      have hm : a ∈ q.2.filter (fun x => x = t) := by
        rw [hv]
        exact List.mem_cons_self a as
      simpa using (List.mem_filter.mp hm).2
    simp [hv, ha]

/-- C5: for every promotion run in which every loaded manifest has an empty
images list (stub manifests), the run is permitted: it terminates with exit
status 0 at the nothing-to-do check, without reading any registry inventory
and without spawning any write command.  Both entrypoints. -/
theorem C5_stub_manifests :
    (∀ (env : Env) (fl : LegacyFlags) (mfests : List Manifest),
      fl.noArgs = false → fl.help = false → fl.version = false →
      env.activateOk = true →
      fl.snapshot = "" → fl.manifestBasedSnapshotOf = "" →
      ¬(fl.snapshot = "" ∧ fl.manifestBasedSnapshotOf = "" ∧ fl.manifest = "" ∧
        fl.manifestDir = "" ∧ fl.thinManifestDir = "") →
      legacyLoad env fl (legacyInit fl) = Except.ok (mfests, true) →
      env.makeSyncContextOk = true →
      mfests.all (fun m => m.images.isEmpty) = true →
      (cipMain env fl).1 = Outcome.exit0 ∧
      readsInventory (cipMain env fl).2 = false ∧
      spawnsWrite (cipMain env fl).2 = false) ∧
    (∀ (env : Env) (opts : rootOptions) (mfests : List Manifest),
      opts.version = false → opts.audit = false → env.activateOk = true →
      opts.snapshot = "" → opts.manifestBasedSnapshotOf = "" →
      ¬(opts.snapshot = "" ∧ opts.manifestBasedSnapshotOf = "" ∧ opts.manifest = "" ∧
        opts.thinManifestDir = "") →
      cmdLoad env opts (cmdInit opts) = Except.ok (mfests, true) →
      env.makeSyncContextOk = true →
      mfests.all (fun m => m.images.isEmpty) = true →
      (runImagePromotion env opts).1 = Outcome.exit0 ∧
      readsInventory (runImagePromotion env opts).2 = false ∧
      spawnsWrite (runImagePromotion env opts).2 = false) := by
  constructor
  · intro env fl mfests hna hh hv hakt _hsnap hmbso hmode hload hmsc hstub
    by_cases hp : fl.parseOnly = true
    · have hrun : cipMain env fl = (Outcome.exit0, legacyActTrace fl) := by
        simp [cipMain, hna, hh, hv, hakt, hmode, hload, hmsc, hp]
      rw [hrun]
      exact ⟨rfl, legacyActTrace_any isReadE fl (fun _ => rfl),
        legacyActTrace_any isWriteE fl (fun _ => rfl)⟩
    · have hrun : cipMain env fl = (Outcome.exit0,
          legacyActTrace fl ++ [Effect.logInfo "No images in manifest(s) --- nothing to do."]) := by
        simp [cipMain, hna, hh, hv, hakt, hmode, hload, hmsc, hp, legacyStub, hmbso,
          toPromotionEdges_stub mfests hstub, hstub]
        exact fun a b c d => hmode ⟨a, hmbso, b, c, d⟩
      rw [hrun]
      refine ⟨rfl, ?_, ?_⟩
      · unfold readsInventory
        rw [List.any_append, legacyActTrace_any isReadE fl (fun _ => rfl)]
        rfl
      · unfold spawnsWrite
        rw [List.any_append, legacyActTrace_any isWriteE fl (fun _ => rfl)]
        rfl
  · intro env opts mfests hver haud hakt _hsnap hmbso hmode hload hmsc hstub
    by_cases hp : opts.parseOnly = true
    · have hrun : runImagePromotion env opts = (Outcome.exit0, cmdActTrace opts) := by
        simp [runImagePromotion, validateImageOptions, hver, haud, hakt, hmode, hload,
          hmsc, hp]
      rw [hrun]
      exact ⟨rfl, cmdActTrace_any isReadE opts (fun _ => rfl),
        cmdActTrace_any isWriteE opts (fun _ => rfl)⟩
    · have hrun : runImagePromotion env opts = (Outcome.exit0,
          cmdActTrace opts ++ [Effect.logInfo "No images in manifest(s) --- nothing to do."]) := by
        simp [runImagePromotion, validateImageOptions, hver, haud, hakt, hmode, hload,
          hmsc, hp, cmdStub, hmbso, toPromotionEdges_stub mfests hstub, hstub]
        exact fun a b c => hmode ⟨a, hmbso, b, c⟩
      rw [hrun]
      refine ⟨rfl, ?_, ?_⟩
      · unfold readsInventory
        rw [List.any_append, cmdActTrace_any isReadE opts (fun _ => rfl)]
        rfl
      · unfold spawnsWrite
        rw [List.any_append, cmdActTrace_any isWriteE opts (fun _ => rfl)]
        rfl

/-- C5 witness: a stub-manifest promotion run of the flag-based entrypoint
exits 0 with no inventory read and no write spawned. -/
theorem C5_witness :
    legacyLoad envStub flagsProm (legacyInit flagsProm) = Except.ok ([mStub], true) ∧
    ((cipMain envStub flagsProm).1 = Outcome.exit0 ∧
     readsInventory (cipMain envStub flagsProm).2 = false ∧
     spawnsWrite (cipMain envStub flagsProm).2 = false) :=
  ⟨rfl, C5_stub_manifests.1 envStub flagsProm [mStub] rfl rfl rfl rfl rfl rfl
    (by decide) rfl rfl (by decide)⟩

/-- C6: with parse-only set, a run whose manifests load and validate
successfully exits 0 right after loading, with no inventory read and no
write command; a run whose manifests fail to load exits nonzero.  Both
entrypoints. -/
theorem C6_parse_only :
    (∀ (env : Env) (fl : LegacyFlags) (mfests : List Manifest),
      fl.noArgs = false → fl.help = false → fl.version = false →
      env.activateOk = true →
      ¬(fl.snapshot = "" ∧ fl.manifestBasedSnapshotOf = "" ∧ fl.manifest = "" ∧
        fl.manifestDir = "" ∧ fl.thinManifestDir = "") →
      legacyLoad env fl (legacyInit fl) = Except.ok (mfests, true) →
      env.makeSyncContextOk = true →
      fl.parseOnly = true →
      (cipMain env fl).1 = Outcome.exit0 ∧
      readsInventory (cipMain env fl).2 = false ∧
      spawnsWrite (cipMain env fl).2 = false) ∧
    (∀ (env : Env) (fl : LegacyFlags) (e : String),
      fl.noArgs = false → fl.help = false → fl.version = false →
      env.activateOk = true →
      ¬(fl.snapshot = "" ∧ fl.manifestBasedSnapshotOf = "" ∧ fl.manifest = "" ∧
        fl.manifestDir = "" ∧ fl.thinManifestDir = "") →
      legacyLoad env fl (legacyInit fl) = Except.error e →
      (cipMain env fl).1 = Outcome.exitNonzero) ∧
    (∀ (env : Env) (opts : rootOptions) (mfests : List Manifest),
      opts.version = false → opts.audit = false → env.activateOk = true →
      ¬(opts.snapshot = "" ∧ opts.manifestBasedSnapshotOf = "" ∧ opts.manifest = "" ∧
        opts.thinManifestDir = "") →
      cmdLoad env opts (cmdInit opts) = Except.ok (mfests, true) →
      env.makeSyncContextOk = true →
      opts.parseOnly = true →
      (runImagePromotion env opts).1 = Outcome.exit0 ∧
      readsInventory (runImagePromotion env opts).2 = false ∧
      spawnsWrite (runImagePromotion env opts).2 = false) ∧
    (∀ (env : Env) (opts : rootOptions) (e : String),
      opts.version = false → opts.audit = false → env.activateOk = true →
      ¬(opts.snapshot = "" ∧ opts.manifestBasedSnapshotOf = "" ∧ opts.manifest = "" ∧
        opts.thinManifestDir = "") →
      cmdLoad env opts (cmdInit opts) = Except.error e →
      (runImagePromotion env opts).1 = Outcome.exitNonzero) := by
  refine ⟨?_, ?_, ?_, ?_⟩
  · intro env fl mfests hna hh hv hakt hmode hload hmsc hp
    have hrun : cipMain env fl = (Outcome.exit0, legacyActTrace fl) := by
      simp [cipMain, hna, hh, hv, hakt, hmode, hload, hmsc, hp]
    rw [hrun]
    exact ⟨rfl, legacyActTrace_any isReadE fl (fun _ => rfl),
      legacyActTrace_any isWriteE fl (fun _ => rfl)⟩
  · intro env fl e hna hh hv hakt hmode hload
    have hrun : cipMain env fl = (Outcome.exitNonzero, legacyActTrace fl) := by
      simp [cipMain, hna, hh, hv, hakt, hmode, hload]
    rw [hrun]
  · intro env opts mfests hver haud hakt hmode hload hmsc hp
    have hrun : runImagePromotion env opts = (Outcome.exit0, cmdActTrace opts) := by
      simp [runImagePromotion, validateImageOptions, hver, haud, hakt, hmode, hload,
        hmsc, hp]
    rw [hrun]
    exact ⟨rfl, cmdActTrace_any isReadE opts (fun _ => rfl),
      cmdActTrace_any isWriteE opts (fun _ => rfl)⟩
  · intro env opts e hver haud hakt hmode hload
    have hrun : runImagePromotion env opts = (Outcome.exitNonzero, cmdActTrace opts) := by
      simp [runImagePromotion, validateImageOptions, hver, haud, hakt, hmode, hload]
    rw [hrun]

/-- C6 witness: a parse-only run of the subcommand entrypoint over a valid
manifest exits 0 with no inventory read and no write spawned. -/
theorem C6_witness :
    optsParse.parseOnly = true ∧
    ((runImagePromotion envAllOk optsParse).1 = Outcome.exit0 ∧
     readsInventory (runImagePromotion envAllOk optsParse).2 = false ∧
     spawnsWrite (runImagePromotion envAllOk optsParse).2 = false) :=
  ⟨rfl, C6_parse_only.2.2.1 envAllOk optsParse [mW] rfl rfl rfl (by decide) rfl rfl rfl⟩

/-- C2: the flag-based entrypoint defaults dry-run to true, but the
subcommand entrypoint registers the flag with the zero value of
`rootOpts.dryRun`, so its default is false — contradicting the documented
default-on behavior; and whenever dry-run is on, no write command is
spawned in either entrypoint. -/
theorem C2_dry_run_default :
    legacyDefaults.dryRun = true ∧ rootOptsDefaults.dryRun = false ∧
    (∀ (env : Env) (fl : LegacyFlags), fl.dryRun = true →
      spawnsWrite (cipMain env fl).2 = false) ∧
    (∀ (env : Env) (opts : rootOptions), opts.dryRun = true →
      spawnsWrite (runImagePromotion env opts).2 = false) :=
  ⟨rfl, rfl,
   fun env fl hd => cipMain_dry_noWrite env fl hd,
   fun env opts hd => runImagePromotion_dry_noWrite env opts hd⟩

/-- C2 witness: a dry-run promotion of the flag-based entrypoint spawns no
write command. -/
theorem C2_witness :
    flagsProm.dryRun = true ∧ spawnsWrite (cipMain envAllOk flagsProm).2 = false :=
  ⟨rfl, C2_dry_run_default.2.2.1 envAllOk flagsProm rfl⟩

/-- C9: in the subcommand entrypoint, whenever the vulnerability severity
threshold is non-negative, Promote is never invoked and no write command is
spawned regardless of dry-run; on the promotion path the run performs the
vulnerability pre-check over the filtered edges. -/
theorem C9_vuln_check_frame :
    (∀ (env : Env) (opts : rootOptions), 0 ≤ opts.severityThreshold →
      callsPromote (runImagePromotion env opts).2 = false ∧
      spawnsWrite (runImagePromotion env opts).2 = false) ∧
    (∀ (env : Env) (opts : rootOptions) (mfests : List Manifest) (es : List PromotionEdge),
      0 ≤ opts.severityThreshold →
      opts.version = false → opts.audit = false → env.activateOk = true →
      opts.snapshot = "" → opts.manifestBasedSnapshotOf = "" →
      ¬(opts.snapshot = "" ∧ opts.manifestBasedSnapshotOf = "" ∧ opts.manifest = "" ∧
        opts.thinManifestDir = "") →
      cmdLoad env opts (cmdInit opts) = Except.ok (mfests, true) →
      env.makeSyncContextOk = true → opts.parseOnly = false →
      mfests.all (fun m => m.images.isEmpty) = false →
      toPromotionEdges mfests = Except.ok es →
      (env.filterEdges es).2 = true →
      ranVulnCheck (runImagePromotion env opts).2 = true) := by
  constructor
  · intro env opts hsev
    exact ⟨runImagePromotion_vuln_any isPromoteE env opts hsev (fun _ => rfl) rfl
      (fun _ => rfl) (fun _ => rfl) (fun _ => rfl) rfl (fun _ => rfl) rfl (fun _ => rfl),
     runImagePromotion_vuln_any isWriteE env opts hsev (fun _ => rfl) rfl
      (fun _ => rfl) (fun _ => rfl) (fun _ => rfl) rfl (fun _ => rfl) rfl (fun _ => rfl)⟩
  · intro env opts mfests es hsev hver haud hakt hsnap hmbso hmode hload hmsc hp himg
      hedges hfilter
    have hrun : (runImagePromotion env opts).2 =
        cmdActTrace opts ++ Effect.printVersion ::
          (filterReadTrace mfests ++ [Effect.vulnCheck (env.filterEdges es).1]) := by
      simp [runImagePromotion, validateImageOptions, hver, haud, hakt, hmode, hload,
        hmsc, hp, cmdStub, cmdTail, cmdPromoteStage, hmbso, hsnap, himg, hedges,
        hfilter, hsev]
      rw [if_neg (fun hx => hmode ⟨hsnap, hmbso, hx.1, hx.2⟩)]
    unfold ranVulnCheck
    rw [hrun, List.any_append, cmdActTrace_any isVulnE opts (fun _ => rfl),
      List.any_cons, List.any_append, filterReadTrace_any isVulnE (fun _ => rfl) mfests]
    rfl

/-- C9 witness: a run with severity threshold 3 neither invokes Promote nor
spawns a write, even though dry-run is off. -/
theorem C9_witness :
    (0 ≤ optsVuln.severityThreshold ∧ optsVuln.dryRun = false) ∧
    callsPromote (runImagePromotion envAllOk optsVuln).2 = false ∧
    spawnsWrite (runImagePromotion envAllOk optsVuln).2 = false :=
  ⟨⟨by decide, rfl⟩, C9_vuln_check_frame.1 envAllOk optsVuln (by decide)⟩

/-- C1 counterexample: in the flag-based entrypoint a promotion run whose
edge filtering reports ok = false still invokes Promote and even exits 0,
refuting the claim that Promote is never called and the run fails. -/
theorem C1_counterexample :
    callsPromote (cipMain envFilterBad flagsProm).2 = true ∧
    (cipMain envFilterBad flagsProm).1 = Outcome.exit0 := by decide

/-- C1 amended: in the subcommand entrypoint, when edge filtering reports
ok = false the run returns an error (nonzero exit) and Promote is never
called; the flag-based entrypoint does not surface the filter's ok flag and
invokes Promote on the filtered edge set unconditionally. -/
theorem C1_filter_refusal :
    (∀ (env : Env) (opts : rootOptions) (mfests : List Manifest) (es : List PromotionEdge),
      opts.version = false → opts.audit = false → env.activateOk = true →
      opts.snapshot = "" → opts.manifestBasedSnapshotOf = "" →
      ¬(opts.snapshot = "" ∧ opts.manifestBasedSnapshotOf = "" ∧ opts.manifest = "" ∧
        opts.thinManifestDir = "") →
      cmdLoad env opts (cmdInit opts) = Except.ok (mfests, true) →
      env.makeSyncContextOk = true → opts.parseOnly = false →
      mfests.all (fun m => m.images.isEmpty) = false →
      toPromotionEdges mfests = Except.ok es →
      (env.filterEdges es).2 = false →
      (runImagePromotion env opts).1 = Outcome.exitNonzero ∧
      callsPromote (runImagePromotion env opts).2 = false) ∧
    (∀ (env : Env) (fl : LegacyFlags) (mfests : List Manifest) (es : List PromotionEdge),
      fl.noArgs = false → fl.help = false → fl.version = false →
      env.activateOk = true →
      fl.snapshot = "" → fl.manifestBasedSnapshotOf = "" →
      ¬(fl.snapshot = "" ∧ fl.manifestBasedSnapshotOf = "" ∧ fl.manifest = "" ∧
        fl.manifestDir = "" ∧ fl.thinManifestDir = "") →
      legacyLoad env fl (legacyInit fl) = Except.ok (mfests, true) →
      env.makeSyncContextOk = true → fl.parseOnly = false →
      mfests.all (fun m => m.images.isEmpty) = false →
      toPromotionEdges mfests = Except.ok es →
      (env.filterEdges es).2 = false →
      callsPromote (cipMain env fl).2 = true) := by
  constructor
  · intro env opts mfests es hver haud hakt hsnap hmbso hmode hload hmsc hp himg
      hedges hfilter
    have hrun : runImagePromotion env opts =
        (Outcome.exitNonzero,
         cmdActTrace opts ++ Effect.printVersion :: filterReadTrace mfests) := by
      simp [runImagePromotion, validateImageOptions, hver, haud, hakt, hmode, hload,
        hmsc, hp, cmdStub, cmdTail, cmdPromoteStage, hmbso, hsnap, himg, hedges,
        hfilter]
      exact fun a b => hmode ⟨hsnap, hmbso, a, b⟩
    rw [hrun]
    refine ⟨rfl, ?_⟩
    unfold callsPromote
    rw [List.any_append, cmdActTrace_any isPromoteE opts (fun _ => rfl),
      List.any_cons, filterReadTrace_any isPromoteE (fun _ => rfl) mfests]
    rfl
  · intro env fl mfests es hna hh hv hakt hsnap hmbso hmode hload hmsc hp himg
      hedges hfilter
    have hrun : (cipMain env fl).2 =
        legacyActTrace fl ++ Effect.printVersion ::
          (filterReadTrace mfests ++
            promoteTrace (!fl.noSvcAcc) mfests fl.dryRun (env.filterEdges es).1) := by
      by_cases hd : fl.dryRun = false ∧ env.promoteOk = false
      · simp [cipMain, hna, hh, hv, hakt, hmode, hload, hmsc, hp, legacyStub,
          legacyTail, legacyPromoteStage, hmbso, hsnap, himg, hedges, hd]
        first
          | exact fun a b c => hmode ⟨hsnap, hmbso, a, b, c⟩
          | rw [if_neg (fun hx => hmode ⟨hsnap, hmbso, hx.1, hx.2.1, hx.2.2⟩)]
      · simp [cipMain, hna, hh, hv, hakt, hmode, hload, hmsc, hp, legacyStub,
          legacyTail, legacyPromoteStage, hmbso, hsnap, himg, hedges, hd]
        first
          | exact fun a b c => hmode ⟨hsnap, hmbso, a, b, c⟩
          | rw [if_neg (fun hx => hmode ⟨hsnap, hmbso, hx.1, hx.2.1, hx.2.2⟩)]
    unfold callsPromote
    rw [hrun, List.any_append, legacyActTrace_any isPromoteE fl (fun _ => rfl),
      List.any_cons, List.any_append,
      filterReadTrace_any isPromoteE (fun _ => rfl) mfests, promoteTrace_calls]
    rfl

/-- C1 witness: a subcommand promotion run whose filtering reports ok =
false exits nonzero without invoking Promote. -/
theorem C1_witness :
    (envFilterBad.filterEdges [eW]).2 = false ∧
    ((runImagePromotion envFilterBad optsProm).1 = Outcome.exitNonzero ∧
     callsPromote (runImagePromotion envFilterBad optsProm).2 = false) :=
  ⟨rfl, C1_filter_refusal.1 envFilterBad optsProm [mW] [eW] rfl rfl rfl rfl rfl
    (by decide) rfl rfl rfl (by decide) rfl rfl⟩

/-- C3 counterexample: the flag-based entrypoint activates the key files
although the no-service-account flag disables service-account mode,
refuting "activated exactly when service-account mode is enabled together
with a non-empty key-files value". -/
theorem C3_counterexample :
    flagsKeysNoSvc.noSvcAcc = true ∧
    didActivate (cipMain envAllOk flagsKeysNoSvc).2 = true := by decide

/-- C3 amended: in the subcommand entrypoint key files are activated exactly
when service-account mode is enabled together with non-empty key files,
while the flag-based entrypoint activates whenever key files are given,
regardless of the no-service-account flag; in both entrypoints every spawned
write command carries the account identity exactly when service-account mode
is enabled. -/
theorem C3_service_account_handling :
    (∀ (env : Env) (opts : rootOptions), opts.version = false → opts.audit = false →
      (didActivate (runImagePromotion env opts).2 = true ↔
        (opts.useServiceAcct = true ∧ opts.keyFiles ≠ ""))) ∧
    (∀ (env : Env) (fl : LegacyFlags),
      fl.noArgs = false → fl.help = false → fl.version = false →
      (didActivate (cipMain env fl).2 = true ↔ fl.keyFiles ≠ "")) ∧
    (∀ (env : Env) (opts : rootOptions),
      (runImagePromotion env opts).2.any (badAccountW opts.useServiceAcct) = false) ∧
    (∀ (env : Env) (fl : LegacyFlags),
      (cipMain env fl).2.any (badAccountW (!fl.noSvcAcc)) = false) := by
  refine ⟨?_, ?_, ?_, ?_⟩
  · intro env opts hver haud
    unfold runImagePromotion
    simp only [validateImageOptions]
    repeat' split
    all_goals
      first
        | exact didActivate_cmdActTrace opts
        | (unfold didActivate;
           rw [List.any_append, cmdStub_any isActivateE env opts _ _ (fun _ => rfl)
             (fun _ => rfl) (fun _ => rfl) rfl (fun _ => rfl) rfl (fun _ => rfl)
             (fun _ => rfl) (fun _ => rfl), Bool.or_false];
           exact didActivate_cmdActTrace opts)
        | simp_all
  · intro env fl hna hh hv
    unfold cipMain
    repeat' split
    all_goals
      first
        | exact didActivate_legacyActTrace fl
        | (unfold didActivate;
           rw [List.any_append, legacyStub_any isActivateE env fl _ _ (fun _ => rfl)
             (fun _ => rfl) (fun _ => rfl) rfl (fun _ => rfl) rfl (fun _ => rfl)
             (fun _ => rfl), Bool.or_false];
           exact didActivate_legacyActTrace fl)
        | simp_all
  · exact runImagePromotion_badAccount
  · exact cipMain_badAccount

/-- C3 witness: with service-account mode on and key files given, the
subcommand entrypoint activates the key files. -/
theorem C3_witness :
    (optsKeys.useServiceAcct = true ∧ optsKeys.keyFiles ≠ "") ∧
    didActivate (runImagePromotion envAllOk optsKeys).2 = true :=
  ⟨⟨rfl, by decide⟩,
   (C3_service_account_handling.1 envAllOk optsKeys rfl rfl).mpr ⟨rfl, by decide⟩⟩

/-- C8 counterexample: an invocation selecting no manifest, no manifest
directory, no thin-manifest directory, and no snapshot mode, but carrying
the version flag, exits 0 rather than fatally. -/
theorem C8_counterexample :
    optsVersion.manifest = "" ∧ optsVersion.thinManifestDir = "" ∧
    optsVersion.snapshot = "" ∧ optsVersion.manifestBasedSnapshotOf = "" ∧
    runImagePromotion envAllOk optsVersion = (Outcome.exit0, []) := by decide

/-- C8 amended: an invocation selecting no manifest, manifest-dir,
thin-manifest-dir, or snapshot mode terminates fatally with a nonzero exit
before any registry read or write — provided it does not take the help,
version, bare-invocation, or audit-server exits. -/
theorem C8_no_mode_fatal :
    (∀ (env : Env) (fl : LegacyFlags),
      fl.noArgs = false → fl.help = false → fl.version = false →
      fl.manifest = "" → fl.manifestDir = "" → fl.thinManifestDir = "" →
      fl.snapshot = "" → fl.manifestBasedSnapshotOf = "" →
      (cipMain env fl).1 = Outcome.exitNonzero ∧
      readsInventory (cipMain env fl).2 = false ∧
      spawnsWrite (cipMain env fl).2 = false ∧
      callsPromote (cipMain env fl).2 = false) ∧
    (∀ (env : Env) (opts : rootOptions),
      opts.version = false → opts.audit = false →
      opts.manifest = "" → opts.thinManifestDir = "" →
      opts.snapshot = "" → opts.manifestBasedSnapshotOf = "" →
      (runImagePromotion env opts).1 = Outcome.exitNonzero ∧
      readsInventory (runImagePromotion env opts).2 = false ∧
      spawnsWrite (runImagePromotion env opts).2 = false ∧
      callsPromote (runImagePromotion env opts).2 = false) := by
  constructor
  · intro env fl hna hh hv hman hmd hthin hsnap hmbso
    have hrun : cipMain env fl = (Outcome.exitNonzero, legacyActTrace fl) := by
      by_cases hk : fl.keyFiles ≠ "" ∧ env.activateOk = false
      · simp [cipMain, hna, hh, hv, hk]
      · simp [cipMain, hna, hh, hv, hk, hsnap, hmbso, hman, hmd, hthin]
    rw [hrun]
    exact ⟨rfl, legacyActTrace_any isReadE fl (fun _ => rfl),
      legacyActTrace_any isWriteE fl (fun _ => rfl),
      legacyActTrace_any isPromoteE fl (fun _ => rfl)⟩
  · intro env opts hver haud hman hthin hsnap hmbso
    have hrun : runImagePromotion env opts = (Outcome.exitNonzero, cmdActTrace opts) := by
      by_cases hk : opts.useServiceAcct = true ∧ opts.keyFiles ≠ "" ∧ env.activateOk = false
      · simp [runImagePromotion, validateImageOptions, hver, haud, hk]
      · simp [runImagePromotion, validateImageOptions, hver, haud, hk, hsnap, hmbso,
          hman, hthin]
    rw [hrun]
    exact ⟨rfl, cmdActTrace_any isReadE opts (fun _ => rfl),
      cmdActTrace_any isWriteE opts (fun _ => rfl),
      cmdActTrace_any isPromoteE opts (fun _ => rfl)⟩

/-- C8 witness: the flag-based entrypoint invoked with only default flags
(no mode selected, not a bare invocation) exits nonzero with no registry
read, no write and no Promote. -/
theorem C8_witness :
    (legacyDefaults.manifest = "" ∧ legacyDefaults.snapshot = "") ∧
    ((cipMain envAllOk legacyDefaults).1 = Outcome.exitNonzero ∧
     readsInventory (cipMain envAllOk legacyDefaults).2 = false ∧
     spawnsWrite (cipMain envAllOk legacyDefaults).2 = false ∧
     callsPromote (cipMain envAllOk legacyDefaults).2 = false) :=
  ⟨⟨rfl, rfl⟩, C8_no_mode_fatal.1 envAllOk legacyDefaults rfl rfl rfl rfl rfl rfl rfl rfl⟩

theorem printedOutput_readRegistry (s : String) (t : List Effect) :
    printedOutput (Effect.readRegistry s :: t) = printedOutput t := rfl

theorem printedOutput_printVersion (t : List Effect) :
    printedOutput (Effect.printVersion :: t) = printedOutput t := rfl

theorem logsError_readRegistry (s : String) (t : List Effect) :
    logsError (Effect.readRegistry s :: t) = logsError t := by
  unfold logsError
  rw [List.any_cons]
  rfl

/-- C4 counterexample: a manifest-based snapshot run with snapshot-tag "v1"
prints the unfiltered projection, whose only entry does not carry "v1",
refuting the claim for the manifest-based snapshot mode. -/
theorem C4_counterexample :
    optsMbsoTag.snapshotTag = "v1" ∧
    printedOutput (runImagePromotion envAllOk optsMbsoTag).2 = some (toYAML riiW) ∧
    riiCarriesTag riiW "v1" = false := by decide

/-- C4 amended: with a non-empty snapshot-tag, the registry-snapshot mode
prints only inventory entries carrying the tag; the manifest-based snapshot
mode does not apply the tag filter — its output is the unfiltered
projection of the edges regardless of snapshot-tag. -/
theorem C4_snapshot_tag_filtering :
    (∀ (env : Env) (opts : rootOptions),
      opts.version = false → opts.audit = false → env.activateOk = true →
      opts.snapshot ≠ "" → opts.manifestBasedSnapshotOf = "" →
      opts.manifest = "" → opts.thinManifestDir = "" →
      opts.parseOnly = false → opts.snapshotTag ≠ "" →
      opts.minimalSnapshot = false → env.makeSyncContextOk = true →
      printedOutput (runImagePromotion env opts).2 =
        some (renderString opts.outputFormat
          (filterByTag (env.inv opts.snapshot) opts.snapshotTag)) ∧
      riiCarriesTag (filterByTag (env.inv opts.snapshot) opts.snapshotTag)
        opts.snapshotTag = true) ∧
    (∀ (env : Env) (opts : rootOptions) (mfests : List Manifest) (es : List PromotionEdge),
      opts.version = false → opts.audit = false → env.activateOk = true →
      opts.manifestBasedSnapshotOf ≠ "" →
      cmdLoad env opts (cmdInit opts) = Except.ok (mfests, true) →
      env.makeSyncContextOk = true → opts.parseOnly = false →
      toPromotionEdges mfests = Except.ok es →
      opts.minimalSnapshot = false →
      printedOutput (runImagePromotion env opts).2 =
        some (renderString opts.outputFormat
          (edgesToRegInvImage es opts.manifestBasedSnapshotOf))) := by
  constructor
  · intro env opts hver haud hakt hsnap hmbso hman hthin hp htag hmin hmsc
    have hrun : runImagePromotion env opts =
        ((renderStage opts.outputFormat
            (filterByTag (env.inv opts.snapshot) opts.snapshotTag)).1,
         cmdActTrace opts ++ Effect.readRegistry opts.snapshot ::
           (renderStage opts.outputFormat
             (filterByTag (env.inv opts.snapshot) opts.snapshotTag)).2) := by
      simp [runImagePromotion, validateImageOptions, hver, haud, hakt, hsnap, hmbso,
        hman, hthin, hp, hmin, hmsc, htag, cmdLoad, cmdInit, cmdStub, cmdTail,
        snapshotStage, snapshotTagFiltered, firstRegistryName, syntheticManifest,
        snapshotSrcName, rootOptions.snapOpts]
    rw [hrun]
    constructor
    · rw [printedOutput_cmdActTrace, printedOutput_readRegistry,
        printedOutput_renderStage]
    · exact filterByTag_carries _ _
  · intro env opts mfests es hver haud hakt hmbso hload hmsc hp hedges hmin
    have hrun : runImagePromotion env opts =
        ((renderStage opts.outputFormat
            (edgesToRegInvImage es opts.manifestBasedSnapshotOf)).1,
         cmdActTrace opts ++
           (renderStage opts.outputFormat
             (edgesToRegInvImage es opts.manifestBasedSnapshotOf)).2) := by
      simp [runImagePromotion, validateImageOptions, hver, haud, hakt, hmbso, hload,
        hmsc, hp, hedges, hmin, cmdStub, cmdTail, snapshotStage,
        rootOptions.snapOpts]
    rw [hrun]
    rw [printedOutput_cmdActTrace, printedOutput_renderStage]

/-- C4 witness: a registry snapshot with snapshot-tag "v1" prints the
filtered inventory, every entry of which carries "v1". -/
theorem C4_witness :
    optsSnap.snapshotTag ≠ "" ∧
    (printedOutput (runImagePromotion envAllOk optsSnap).2 =
      some (renderString optsSnap.outputFormat
        (filterByTag (envAllOk.inv optsSnap.snapshot) optsSnap.snapshotTag)) ∧
     riiCarriesTag (filterByTag (envAllOk.inv optsSnap.snapshot) optsSnap.snapshotTag)
       optsSnap.snapshotTag = true) :=
  ⟨by decide, C4_snapshot_tag_filtering.1 envAllOk optsSnap rfl rfl rfl (by decide)
    rfl rfl rfl rfl (by decide) rfl rfl⟩

/-- C7: in a registry snapshot run, output-format CSV selects the CSV
rendering, YAML the YAML rendering, any other value falls back to the YAML
rendering after an error is logged, and the chosen rendering is printed on
standard output.  Both entrypoints. -/
theorem C7_output_format :
    (∀ (env : Env) (opts : rootOptions),
      opts.version = false → opts.audit = false → env.activateOk = true →
      opts.snapshot ≠ "" → opts.manifestBasedSnapshotOf = "" →
      opts.manifest = "" → opts.thinManifestDir = "" →
      opts.parseOnly = false → opts.snapshotTag = "" →
      opts.minimalSnapshot = false → env.makeSyncContextOk = true →
      printedOutput (runImagePromotion env opts).2 =
        some (renderString opts.outputFormat (env.inv opts.snapshot)) ∧
      (opts.outputFormat = "CSV" →
        printedOutput (runImagePromotion env opts).2 =
          some (toCSV (env.inv opts.snapshot))) ∧
      (opts.outputFormat ≠ "CSV" →
        printedOutput (runImagePromotion env opts).2 =
          some (toYAML (env.inv opts.snapshot))) ∧
      (opts.outputFormat ≠ "CSV" → opts.outputFormat ≠ "YAML" →
        logsError (runImagePromotion env opts).2 = true)) ∧
    (∀ (env : Env) (fl : LegacyFlags),
      fl.noArgs = false → fl.help = false → fl.version = false →
      env.activateOk = true →
      fl.snapshot ≠ "" → fl.manifestBasedSnapshotOf = "" →
      fl.manifest = "" → fl.manifestDir = "" → fl.thinManifestDir = "" →
      fl.parseOnly = false → fl.snapshotTag = "" →
      fl.minimalSnapshot = false → env.makeSyncContextOk = true →
      printedOutput (cipMain env fl).2 =
        some (renderString fl.outputFormat (env.inv fl.snapshot)) ∧
      (fl.outputFormat = "CSV" →
        printedOutput (cipMain env fl).2 = some (toCSV (env.inv fl.snapshot))) ∧
      (fl.outputFormat ≠ "CSV" →
        printedOutput (cipMain env fl).2 = some (toYAML (env.inv fl.snapshot))) ∧
      (fl.outputFormat ≠ "CSV" → fl.outputFormat ≠ "YAML" →
        logsError (cipMain env fl).2 = true)) := by
  constructor
  · intro env opts hver haud hakt hsnap hmbso hman hthin hp htag hmin hmsc
    have hrun : runImagePromotion env opts =
        ((renderStage opts.outputFormat (env.inv opts.snapshot)).1,
         cmdActTrace opts ++ Effect.readRegistry opts.snapshot ::
           (renderStage opts.outputFormat (env.inv opts.snapshot)).2) := by
      simp [runImagePromotion, validateImageOptions, hver, haud, hakt, hsnap, hmbso,
        hman, hthin, hp, hmin, hmsc, htag, cmdLoad, cmdInit, cmdStub, cmdTail,
        snapshotStage, snapshotTagFiltered, firstRegistryName, syntheticManifest,
        snapshotSrcName, rootOptions.snapOpts]
    have hout : printedOutput (runImagePromotion env opts).2 =
        some (renderString opts.outputFormat (env.inv opts.snapshot)) := by
      rw [hrun, printedOutput_cmdActTrace, printedOutput_readRegistry,
        printedOutput_renderStage]
    refine ⟨hout, ?_, ?_, ?_⟩
    · intro hc
      rw [hout]
      unfold renderString
      rw [if_pos hc]
    · intro hc
      rw [hout]
      unfold renderString
      rw [if_neg hc]
    · intro hc hy
      rw [hrun, logsError_cmdActTrace, logsError_readRegistry]
      exact logsError_renderStage _ _ hc hy
  · intro env fl hna hh hv hakt hsnap hmbso hman hmd hthin hp htag hmin hmsc
    have hrun : cipMain env fl =
        ((renderStage fl.outputFormat (env.inv fl.snapshot)).1,
         legacyActTrace fl ++ Effect.readRegistry fl.snapshot ::
           (renderStage fl.outputFormat (env.inv fl.snapshot)).2) := by
      simp [cipMain, hna, hh, hv, hakt, hsnap, hmbso, hman, hmd, hthin, hp, hmin,
        hmsc, htag, legacyLoad, legacyInit, legacyStub, legacyTail, snapshotStage,
        snapshotTagFiltered, firstRegistryName, syntheticManifest, snapshotSrcName,
        LegacyFlags.snapOpts]
    have hout : printedOutput (cipMain env fl).2 =
        some (renderString fl.outputFormat (env.inv fl.snapshot)) := by
      rw [hrun, printedOutput_legacyActTrace, printedOutput_readRegistry,
        printedOutput_renderStage]
    refine ⟨hout, ?_, ?_, ?_⟩
    · intro hc
      rw [hout]
      unfold renderString
      rw [if_pos hc]
    · intro hc
      rw [hout]
      unfold renderString
      rw [if_neg hc]
    · intro hc hy
      rw [hrun, logsError_legacyActTrace, logsError_readRegistry]
      exact logsError_renderStage _ _ hc hy

/-- C7 witness: a registry snapshot with the default YAML output format
prints the YAML rendering of the observed inventory. -/
theorem C7_witness :
    optsSnapNoTag.outputFormat ≠ "CSV" ∧
    printedOutput (runImagePromotion envAllOk optsSnapNoTag).2 =
      some (toYAML (envAllOk.inv optsSnapNoTag.snapshot)) :=
  ⟨by decide,
   (C7_output_format.1 envAllOk optsSnapNoTag rfl rfl rfl (by decide) rfl rfl rfl
     rfl rfl rfl rfl).2.2.1 (by decide)⟩

/-- C10 counterexample: a snapshot flag combined with a manifest flag whose
manifest is a stub makes the run end at the nothing-to-do exit — the
snapshot path never runs (nothing is printed), refuting "the snapshot path
runs and terminates the process". -/
theorem C10_counterexample :
    optsSnapManifest.snapshot ≠ "" ∧ optsSnapManifest.manifest ≠ "" ∧
    printedOutput (runImagePromotion envStub optsSnapManifest).2 = none ∧
    (runImagePromotion envStub optsSnapManifest).1 = Outcome.exit0 := by decide

/-- C10 amended: combining a snapshot flag with a manifest or
thin-manifest-dir flag is never rejected (option validation always
succeeds) and Promote is never reached in either entrypoint; when the
loaded manifests contain at least one image the snapshot is rendered and
the run exits 0, while a run whose manifests are all stubs ends earlier at
the nothing-to-do exit without rendering. -/
theorem C10_snapshot_with_manifest :
    (∀ (o : rootOptions), validateImageOptions o = Except.ok ()) ∧
    (∀ (env : Env) (opts : rootOptions),
      opts.snapshot ≠ "" ∨ opts.manifestBasedSnapshotOf ≠ "" →
      callsPromote (runImagePromotion env opts).2 = false) ∧
    (∀ (env : Env) (fl : LegacyFlags),
      fl.snapshot ≠ "" ∨ fl.manifestBasedSnapshotOf ≠ "" →
      callsPromote (cipMain env fl).2 = false) ∧
    (∀ (env : Env) (opts : rootOptions) (mfests : List Manifest) (es : List PromotionEdge),
      opts.version = false → opts.audit = false → env.activateOk = true →
      opts.snapshot ≠ "" → opts.manifestBasedSnapshotOf = "" →
      cmdLoad env opts (cmdInit opts) = Except.ok (mfests, true) →
      env.makeSyncContextOk = true → opts.parseOnly = false →
      mfests.all (fun m => m.images.isEmpty) = false →
      toPromotionEdges mfests = Except.ok es →
      opts.snapshotTag = "" → opts.minimalSnapshot = false →
      (runImagePromotion env opts).1 = Outcome.exit0 ∧
      (printedOutput (runImagePromotion env opts).2).isSome = true) := by
  refine ⟨fun _ => rfl, ?_, ?_, ?_⟩
  · intro env opts hs
    unfold callsPromote runImagePromotion
    simp only [validateImageOptions]
    repeat' split
    all_goals
      first
        | rfl
        | exact cmdActTrace_any isPromoteE opts (fun _ => rfl)
        | (rw [List.any_append, cmdActTrace_any isPromoteE opts (fun _ => rfl),
            cmdStub_snap_noPromote env opts _ _ hs]; rfl)
  · intro env fl hs
    unfold callsPromote cipMain
    repeat' split
    all_goals
      first
        | rfl
        | exact legacyActTrace_any isPromoteE fl (fun _ => rfl)
        | (rw [List.any_append, legacyActTrace_any isPromoteE fl (fun _ => rfl),
            legacyStub_snap_noPromote env fl _ _ hs]; rfl)
  · intro env opts mfests es hver haud hakt hsnap hmbso hload hmsc hp himg hedges
      htag hmin
    have hrun : runImagePromotion env opts =
        ((renderStage opts.outputFormat (env.inv (firstRegistryName mfests))).1,
         cmdActTrace opts ++ Effect.printVersion :: Effect.readRegistry opts.snapshot ::
           (renderStage opts.outputFormat (env.inv (firstRegistryName mfests))).2) := by
      simp [runImagePromotion, validateImageOptions, hver, haud, hakt, hsnap, hmbso,
        hload, hmsc, hp, himg, hedges, htag, hmin, cmdStub, cmdTail, snapshotStage,
        snapshotTagFiltered, snapshotSrcName, rootOptions.snapOpts]
    constructor
    · rw [hrun]
      exact renderStage_fst _ _
    · rw [hrun, printedOutput_cmdActTrace, printedOutput_printVersion,
        printedOutput_readRegistry, printedOutput_renderStage]
      rfl

/-- C10 witness: snapshot together with a manifest holding images renders
the snapshot and exits 0. -/
theorem C10_witness :
    (optsSnapManifest.snapshot ≠ "" ∧ optsSnapManifest.manifest ≠ "") ∧
    ((runImagePromotion envAllOk optsSnapManifest).1 = Outcome.exit0 ∧
     (printedOutput (runImagePromotion envAllOk optsSnapManifest).2).isSome = true) :=
  ⟨⟨by decide, by decide⟩,
   C10_snapshot_with_manifest.2.2.2 envAllOk optsSnapManifest
     [syntheticManifest optsSnapManifest.snapOpts, mW] [eW]
     rfl rfl rfl (by decide) rfl rfl rfl rfl (by decide) rfl rfl rfl⟩

end Cip
